import Mathlib

/-!
Verification of the statement-conversion scripts of mjc-tax-utils.

The Python sources (`nab/nab_offset2tsv.py`, `cba/cba_account2tsv.py`,
`cba/cba_mastercard2tsv.py`) are shallow-embedded below.  A document is
modelled as a `List (List String)`: the ordered pages, each an ordered list
of the non-empty stripped text lines that PyMuPDF extraction yields (the
PDF-extraction collaborator itself is out of scope).  Python floats are
modelled as exact decimal numbers (`Flt`, with a rational interpretation
`Flt.toQ` for the algebraic statements); the specialised regular
expressions the scripts use are translated into dedicated character-level
matchers.
-/

/-! Exact decimal numbers.  The scripts do all their arithmetic on Python
floats obtained from short decimal strings; we model them exactly as
`num / 10 ^ exp` without normalisation, so that every operation is plain
integer arithmetic and evaluates inside the kernel.  `toQ` interprets a
value as a rational for the algebraic statements. -/

def tenPow : Nat → Int
  | 0 => 1
  | n + 1 => 10 * tenPow n

structure Flt where
  num : Int
  exp : Nat
deriving Repr, DecidableEq

namespace Flt

def zero : Flt := ⟨0, 0⟩

/-- The left operand's numerator over the common power-of-ten denominator
`max a.exp b.exp`. -/
def alignL (a b : Flt) : Int := a.num * tenPow (max a.exp b.exp - a.exp)

/-- The right operand's numerator over the common denominator. -/
def alignR (a b : Flt) : Int := b.num * tenPow (max a.exp b.exp - b.exp)

def add (a b : Flt) : Flt := ⟨alignL a b + alignR a b, max a.exp b.exp⟩

def sub (a b : Flt) : Flt := ⟨alignL a b - alignR a b, max a.exp b.exp⟩

def neg (a : Flt) : Flt := ⟨-a.num, a.exp⟩

def abs (a : Flt) : Flt := ⟨|a.num|, a.exp⟩

/-- Value equality (Python `==` on the modelled floats). -/
def beq (a b : Flt) : Bool := alignL a b == alignR a b

/-- Value order (Python `<`). -/
def blt (a b : Flt) : Bool := decide (alignL a b < alignR a b)

/-- Value order (Python `<=`). -/
def ble (a b : Flt) : Bool := decide (alignL a b ≤ alignR a b)

/-- Multiply by a power of ten (used for float exponents). -/
def mulPow10 (a : Flt) (e : Int) : Flt :=
  if 0 ≤ e then ⟨a.num * tenPow e.toNat, a.exp⟩
  else ⟨a.num, a.exp + (-e).toNat⟩

/-- The rational value of an exact decimal. -/
def toQ (a : Flt) : ℚ := (a.num : ℚ) / (10 : ℚ) ^ a.exp

end Flt

namespace StrUtil

/-- Whitespace characters recognised by Python `str.strip` / `\s`. -/
def isWs (c : Char) : Bool :=
  c = ' ' || c = '\t' || c = '\n' || c = '\r' || c.toNat = 11 || c.toNat = 12

def isDigitC (c : Char) : Bool := '0' ≤ c && c ≤ '9'

def isAlphaC (c : Char) : Bool := ('a' ≤ c && c ≤ 'z') || ('A' ≤ c && c ≤ 'Z')

/-- Characters matched by the `[\d,]` class. -/
def isDigComma (c : Char) : Bool := isDigitC c || c = ','

def digitVal (c : Char) : Nat := c.toNat - '0'.toNat

def natOfDigits (l : List Char) : Nat :=
  l.foldl (fun a c => a * 10 + digitVal c) 0

def lstripL (l : List Char) : List Char := l.dropWhile isWs

def rstripL (l : List Char) : List Char := (l.reverse.dropWhile isWs).reverse

def stripL (l : List Char) : List Char := rstripL (lstripL l)

def strip (s : String) : String := ⟨stripL s.data⟩

def rstripS (s : String) : String := ⟨rstripL s.data⟩

def lowerL (l : List Char) : List Char := l.map Char.toLower

def lower (s : String) : String := ⟨lowerL s.data⟩

def upperL (l : List Char) : List Char := l.map Char.toUpper

def upper (s : String) : String := ⟨upperL s.data⟩

/-- Python substring test `needle in hay`. -/
def containsL : List Char → List Char → Bool
  | hay, needle =>
    if needle.isPrefixOf hay then true
    else
      match hay with
      | [] => false
      | _ :: t => containsL t needle

def containsS (hay needle : String) : Bool := containsL hay.data needle.data

def startsWithS (s pre : String) : Bool := pre.data.isPrefixOf s.data

def endsWithS (s suf : String) : Bool := suf.data.isSuffixOf s.data

/-- Python `str.replace(old, '')` for a single character: drop every occurrence. -/
def dropChar (c : Char) (s : String) : String := ⟨s.data.filter (fun d => d ≠ c)⟩

/-- Python `' '.join xs`. -/
def joinSp (xs : List String) : String := String.intercalate " " xs

/-- Helper for `splitWs`: `acc` holds the current word, reversed. -/
def splitWsAux : List Char → List Char → List (List Char)
  | [], acc => if acc.isEmpty then [] else [acc.reverse]
  | c :: t, acc =>
    if isWs c then
      if acc.isEmpty then splitWsAux t [] else acc.reverse :: splitWsAux t []
    else splitWsAux t (c :: acc)

/-- Python `str.split()` with no argument: split on whitespace runs, no empties. -/
def splitWsL (l : List Char) : List (List Char) := splitWsAux l []

def splitWs (s : String) : List String := (splitWsL s.data).map (fun l => ⟨l⟩)

/-- Parse a non-empty all-digit string as a natural number. -/
def parseNat? (l : List Char) : Option Nat :=
  if l ≠ [] && l.all isDigitC then some (natOfDigits l) else none

/-- Python `s.split('/')` (single-character separator): split at every
occurrence, keeping empty pieces. -/
def splitSlashAux (acc : List Char) : List Char → List String
  | [] => [⟨acc.reverse⟩]
  | d :: t =>
    if d = '/' then ⟨acc.reverse⟩ :: splitSlashAux [] t
    else splitSlashAux (d :: acc) t

def splitSlash (s : String) : List String := splitSlashAux [] s.data

/-- Python `int(s)` for an optionally-signed digit string. -/
def parseInt? (l : List Char) : Option Int :=
  match stripL l with
  | '-' :: t => (parseNat? t).map (fun n => -(n : Int))
  | '+' :: t => (parseNat? t).map (fun n => (n : Int))
  | t => (parseNat? t).map (fun n => (n : Int))

/-- Python `float(s)` on an already-stripped token: optional sign, digits
with at most one point (at least one digit), optional integer exponent;
the value is returned as an exact decimal. -/
def pyFloat? (s : String) : Option Flt :=
  let l := stripL s.data
  let (neg, l) : Bool × List Char :=
    match l with
    | '-' :: t => (true, t)
    | '+' :: t => (false, t)
    | t => (false, t)
  let mant := l.takeWhile (fun c => c ≠ 'e' && c ≠ 'E')
  let expPart := l.dropWhile (fun c => c ≠ 'e' && c ≠ 'E')
  let ip := mant.takeWhile isDigitC
  let rest := mant.dropWhile isDigitC
  let fracOk : Option (List Char) :=
    match rest with
    | [] => some []
    | '.' :: t => if t.all isDigitC then some t else none
    | _ => none
  match fracOk with
  | none => none
  | some fp =>
    if ip.isEmpty && fp.isEmpty then none
    else
      let base : Flt := ⟨(natOfDigits (ip ++ fp) : Int), fp.length⟩
      let expVal : Option Int :=
        match expPart with
        | [] => some 0
        | _ :: et => parseInt? et
      match expVal with
      | none => none
      | some e =>
        let v := base.mulPow10 e
        if neg then some (Flt.neg v) else some v

/-- Two-digit zero padding, Python `f"{n:02d}"` for `0 ≤ n`. -/
def pad2 (n : Nat) : String :=
  if n < 10 then "0" ++ toString n else toString n

end StrUtil


namespace Rx

open StrUtil

/-- Split a list at its leading run of characters satisfying `p`. -/
def runOf (p : Char → Bool) (l : List Char) : List Char × List Char :=
  (l.takeWhile p, l.dropWhile p)

/-- Leftmost-position search: try the anchored matcher `f` at every suffix,
returning the text before the match, the payload, and the remainder. -/
def searchAcc (f : List Char → Option (α × List Char)) :
    List Char → List Char → Option (List Char × α × List Char)
  | acc, l =>
    match f l with
    | some (a, rest) => some (acc.reverse, a, rest)
    | none =>
      match l with
      | [] => none
      | c :: t => searchAcc f (c :: acc) t

def searchL (f : List Char → Option (α × List Char)) (l : List Char) :
    Option (List Char × α × List Char) :=
  searchAcc f [] l

/-- Match a literal word, case-insensitively. -/
def matchLitCI : List Char → List Char → Option (List Char)
  | [], l => some l
  | _, [] => none
  | w :: ws, c :: t => if c.toLower = w.toLower then matchLitCI ws t else none

/-- Match `\s+`. -/
def matchWsPlus (l : List Char) : Option (List Char × List Char) :=
  let (w, r) := runOf isWs l
  if w.isEmpty then none else some (w, r)

/-- Match `\d{1,2}` immediately followed by a non-digit (the only way the
greedy/backtracking match of `\d{1,2}\s` can succeed on a longer digit run). -/
def matchDay12 (l : List Char) : Option (Nat × List Char) :=
  let (d, r) := runOf isDigitC l
  if d.length = 0 || d.length > 2 then none else some (natOfDigits d, r)

end Rx

namespace Rx

/-- A matched `DD MON` token: the day digits, the whitespace run, the month
letters, exactly as they appeared in the text. -/
structure DateTok where
  day : List Char
  ws1 : List Char
  mon : List Char
deriving Repr, DecidableEq

def DateTok.chars (t : DateTok) : List Char := t.day ++ t.ws1 ++ t.mon

/-- A matched `DD MON YYYY` token. -/
structure DateTokY where
  day : List Char
  ws1 : List Char
  mon : List Char
  ws2 : List Char
  year : List Char
deriving Repr, DecidableEq

def DateTokY.chars (t : DateTokY) : List Char :=
  t.day ++ t.ws1 ++ t.mon ++ t.ws2 ++ t.year

/-- Match `\d{1,2}` at the start, where the digit run must not exceed two
characters (a longer run makes the following `\s` fail even after
backtracking). -/
def matchDayChars (l : List Char) : Option (List Char × List Char) :=
  let (d, r) := runOf StrUtil.isDigitC l
  if d.length = 0 || d.length > 2 then none else some (d, r)

/-- Match `[A-Za-z]{3,}` greedily (the whole run, at least three letters). -/
def matchMonLoose (l : List Char) : Option (List Char × List Char) :=
  let (m, r) := runOf StrUtil.isAlphaC l
  if m.length < 3 then none else some (m, r)

/-- Match `[A-Za-z]{3}`: exactly the first three letters of the run (the run
itself only needs to be at least three long). -/
def matchMon3 (l : List Char) : Option (List Char × List Char) :=
  let (m, r) := runOf StrUtil.isAlphaC l
  if m.length < 3 then none else some (m.take 3, m.drop 3 ++ r)

/-- Match `\d{4}`: the digit run must be exactly four characters for the
patterns below, which all demand a non-digit right after. -/
def matchYear4 (l : List Char) : Option (List Char × List Char) :=
  let (d, r) := runOf StrUtil.isDigitC l
  if d.length = 4 then some (d, r) else none

/-- Match `^(\d{1,2}\s+MON)` where the month matcher is a parameter. -/
def matchDayMonWith (monM : List Char → Option (List Char × List Char))
    (l : List Char) : Option (DateTok × List Char) :=
  match matchDayChars l with
  | none => none
  | some (d, r1) =>
    match matchWsPlus r1 with
    | none => none
    | some (w, r2) =>
      match monM r2 with
      | none => none
      | some (m, r3) => some (⟨d, w, m⟩, r3)

/-- Match `^(\d{1,2}\s+MON\s+\d{4})`. -/
def matchDayMonYearWith (monM : List Char → Option (List Char × List Char))
    (l : List Char) : Option (DateTokY × List Char) :=
  match matchDayMonWith monM l with
  | none => none
  | some (t, r3) =>
    match matchWsPlus r3 with
    | none => none
    | some (w2, r4) =>
      match matchYear4 r4 with
      | none => none
      | some (y, r5) => some (⟨t.day, t.ws1, t.mon, w2, y⟩, r5)

/-- Close a standalone pattern: `\s*$`, i.e. the remainder is all whitespace. -/
def closeStandalone (rest : List Char) : Bool := rest.all StrUtil.isWs

/-- Close an at-start pattern: `\s+(.+)` after the date group.  Greedy `\s+`
takes the whole whitespace run, backing off one character when nothing would
be left for `(.+)`. -/
def closeAtStart (rest : List Char) : Option (List Char) :=
  match matchWsPlus rest with
  | none => none
  | some (w, r) =>
    if r ≠ [] then some r
    else if w.length ≥ 2 then some [w.getLast!]
    else none

end Rx

/-! Functions shared verbatim by the scripts. -/

namespace Core

open StrUtil

/-- The `month_map` dictionary of the scripts. -/
def month_map : List (String × Nat) :=
  [("jan", 1), ("feb", 2), ("mar", 3), ("apr", 4), ("may", 5), ("jun", 6),
   ("jul", 7), ("aug", 8), ("sep", 9), ("sept", 9), ("oct", 10), ("nov", 11),
   ("dec", 12)]

/-- Dictionary lookup of `mon_str.lower()[:3]`. -/
def monthLookup (mon : List Char) : Option Nat :=
  (month_map.find? (fun p => p.1 = (⟨(lowerL mon).take 3⟩ : String))).map (·.2)

/-- Python `f"{day:02d}/{month_num:02d}/{year}"`. -/
def formatDate (day : Nat) (mon : Nat) (year : Int) : String :=
  pad2 day ++ "/" ++ pad2 mon ++ "/" ++ toString year

/-- The shared `parse_amount` of the NAB and CBA account scripts: handle
`Nil`, drop `$`, commas and parentheses, then `float`. -/
def parse_amount (amount_str : String) : Option Flt :=
  if (strip amount_str).data.isEmpty then none
  else
    let cleaned := strip amount_str
    if lower cleaned = "nil" || lower cleaned = "nill" || lower cleaned = "nil." then
      some Flt.zero
    else
      let cleaned := strip (dropChar ')' (dropChar '(' (dropChar ',' (dropChar '$' cleaned))))
      pyFloat? cleaned

/-- The shared `parse_balance_with_dr_cr`: strip a trailing DR/CR suffix,
then parse like an amount; the flag reports a DR (debit) suffix. -/
def parse_balance_with_dr_cr (balance_str : String) : Option Flt × Bool :=
  if (strip balance_str).data.isEmpty then (none, false)
  else
    let cleaned := strip balance_str
    if lower cleaned = "nil" || lower cleaned = "nill" || lower cleaned = "nil." then
      (some Flt.zero, false)
    else
      let (cleaned, is_debit) :=
        if endsWithS (upper cleaned) " DR" then
          (strip ⟨cleaned.data.take (cleaned.data.length - 3)⟩, true)
        else if endsWithS (upper cleaned) "DR" then
          (strip ⟨cleaned.data.take (cleaned.data.length - 2)⟩, true)
        else if endsWithS (upper cleaned) " CR" then
          (strip ⟨cleaned.data.take (cleaned.data.length - 3)⟩, false)
        else if endsWithS (upper cleaned) "CR" then
          (strip ⟨cleaned.data.take (cleaned.data.length - 2)⟩, false)
        else (cleaned, false)
      let cleaned := strip (dropChar ')' (dropChar '(' (dropChar ',' (dropChar '$' cleaned))))
      match pyFloat? cleaned with
      | some v => (some v, is_debit)
      | none => (none, false)

end Core

namespace Rx

open StrUtil

/-- Match `[\d,]+\.?\d*` greedily.  The optional dot branch never needs to
backtrack here: all callers follow this core with a pattern that cannot
start with a dot, so the dotless alternative could never rescue a failure. -/
def matchNumCore (l : List Char) : Option (List Char × List Char) :=
  let (cd, r) := runOf isDigComma l
  if cd.isEmpty then none
  else
    match r with
    | '.' :: r2 =>
      let (fr, r3) := runOf isDigitC r2
      some (cd ++ '.' :: fr, r3)
    | _ => some (cd, r)

/-- Match `[\d,]+\.\d{2}`: the two fractional digits are consumed exactly;
any further digit is left to the caller's tail check, which then fails just
as the regex engine would. -/
def matchAmt2 (l : List Char) : Option (List Char × List Char) :=
  let (cd, r) := runOf isDigComma l
  if cd.isEmpty then none
  else
    match r with
    | '.' :: a :: b :: r3 =>
      if isDigitC a && isDigitC b then some (cd ++ ['.', a, b], r3) else none
    | _ => none

/-- Search `[\d,]+\.\d{2}` anywhere in the line (used as a balance gate). -/
def searchAmt2 (l : List Char) : Bool := (searchL matchAmt2 l).isSome

/-- Search `(\d{4})`: the first position with at least four consecutive
digits; the group is the first four of them. -/
def search4Digits (l : List Char) : Option Nat :=
  (searchL
    (fun l =>
      let (d, r) := runOf isDigitC l
      if d.length ≥ 4 then some (natOfDigits (d.take 4), r) else none)
    l).map (fun x => x.2.1)

/-- Search `([A-Za-z]{3,})`: the first maximal letter run of length three or
more. -/
def searchLetters3 (l : List Char) : Option (List Char) :=
  (searchL
    (fun l =>
      let (m, r) := runOf isAlphaC l
      if m.length ≥ 3 then some (m, r) else none)
    l).map (fun x => x.2.1)

/-- Match `^(\d{1,2})` (greedy, up to two digits, nothing required after). -/
def matchLeadingDigits12 (l : List Char) : Option Nat :=
  let d := (l.takeWhile isDigitC).take 2
  if d.isEmpty then none else some (natOfDigits d)

theorem lengthDropWhileLe (p : Char → Bool) :
    ∀ (l : List Char), (l.dropWhile p).length ≤ l.length
  | [] => le_refl _
  | c :: t => by
    simp only [List.dropWhile]
    cases p c
    · simp
    · simpa using Nat.le_succ_of_le (lengthDropWhileLe p t)

/-- Helper for `collapseWs`: the flag records whether the previous character
was inside a whitespace run already replaced. -/
def collapseWsAux : Bool → List Char → List Char
  | _, [] => []
  | prevWs, c :: t =>
    if isWs c then
      if prevWs then collapseWsAux true t else ' ' :: collapseWsAux true t
    else c :: collapseWsAux false t

/-- Python `re.sub(r'\s+', ' ', s)`: collapse every whitespace run. -/
def collapseWs (l : List Char) : List Char := collapseWsAux false l

end Rx

/-! Embedding of `cba/cba_account2tsv.py`. -/

namespace CbaAccount

open StrUtil

/-- The script's `parse_date_dd_mmm`: regex `^(\d{1,2})\s+([A-Za-z]{3})\s*$`
on the stripped token, month looked up by its lowered first three letters,
year rolled over when the month decreases past `last_month`. -/
def parse_date_dd_mmm (date_str : String) (current_year : Int)
    (last_month : Option Nat) : Option String :=
  match Rx.matchDayMonWith Rx.matchMon3 (stripL date_str.data) with
  | none => none
  | some (t, rest) =>
    if Rx.closeStandalone rest then
      match Core.monthLookup t.mon with
      | none => none
      | some m =>
        let year :=
          match last_month with
          | some lm => if m < lm then current_year + 1 else current_year
          | none => current_year
        some (Core.formatDate (natOfDigits t.day) m year)
    else none

/-- `date_pattern`: `^(\d{1,2}\s+[A-Za-z]{3})\s*$`. -/
def dateStandalone? (l : List Char) : Option Rx.DateTok :=
  match Rx.matchDayMonWith Rx.matchMon3 l with
  | some (t, rest) => if Rx.closeStandalone rest then some t else none
  | none => none

/-- `date_with_year_pattern`: `^(\d{1,2}\s+[A-Za-z]{3}\s+\d{4})\s*$`. -/
def dateYearStandalone? (l : List Char) : Option Rx.DateTokY :=
  match Rx.matchDayMonYearWith Rx.matchMon3 l with
  | some (t, rest) => if Rx.closeStandalone rest then some t else none
  | none => none

/-- `^(\d{1,2}\s+[A-Za-z]{3}\s+\d{4})\s+(.+)`: date-with-year at line start,
followed by text; the second component is the raw second group. -/
def dateAtStartYear? (l : List Char) : Option (Rx.DateTokY × List Char) :=
  match Rx.matchDayMonYearWith Rx.matchMon3 l with
  | some (t, rest) => (Rx.closeAtStart rest).map (fun g2 => (t, g2))
  | none => none

/-- `^(\d{1,2}\s+[A-Za-z]{3})\s+(.+)`: yearless date at line start. -/
def dateAtStart? (l : List Char) : Option (Rx.DateTok × List Char) :=
  match Rx.matchDayMonWith Rx.matchMon3 l with
  | some (t, rest) => (Rx.closeAtStart rest).map (fun g2 => (t, g2))
  | none => none

/-- Result of the date-recognition block of `parse_transactions`
(lines 383-412 of the script). -/
structure DateResolve where
  formatted : Option String
  year : Int
  transStart : Option String
deriving Repr, DecidableEq

/-- The `re.match(r'^(\d{1,2}\s+[A-Za-z]{3})', ...)` extraction of the
`DD MMM` part of a year-bearing token (always succeeds on such tokens). -/
def yearTokenDateStr (chars : List Char) : String :=
  match Rx.matchDayMonWith Rx.matchMon3 chars with
  | some (t3, _) => ⟨t3.chars⟩
  | none => ""

/-- The date-recognition block of `parse_transactions`: try the four date
patterns; for a year-bearing token, `current_year` is first set from the
token's four-digit year and the `DD MMM` part is then re-parsed through
`parse_date_dd_mmm` (so the rollover comparison against `last_month` still
runs); for a yearless token, `parse_date_dd_mmm` is applied directly. -/
def resolveDateLine (line : String) (current_year : Int)
    (last_month : Option Nat) : DateResolve :=
  let l := line.data
  match dateAtStartYear? l, dateYearStandalone? l with
  | some (t, g2), _ =>
    let cy :=
      match Rx.search4Digits t.chars with
      | some y => (y : Int)
      | none => current_year
    ⟨parse_date_dd_mmm (yearTokenDateStr t.chars) cy last_month, cy,
      some (strip ⟨g2⟩)⟩
  | none, some t =>
    let cy :=
      match Rx.search4Digits t.chars with
      | some y => (y : Int)
      | none => current_year
    ⟨parse_date_dd_mmm (yearTokenDateStr t.chars) cy last_month, cy, none⟩
  | none, none =>
    match dateAtStart? l, dateStandalone? l with
    | some (t, g2), _ =>
      ⟨parse_date_dd_mmm ⟨t.chars⟩ current_year last_month, current_year,
        some (strip ⟨g2⟩)⟩
    | none, some t =>
      ⟨parse_date_dd_mmm ⟨t.chars⟩ current_year last_month, current_year, none⟩
    | none, none => ⟨none, current_year, none⟩

end CbaAccount

namespace CbaAccount

open StrUtil

/-- The `skip_line_patterns` substring searches. -/
def skip_line_patterns_hit (line_lower : String) : Bool :=
  containsS line_lower "interest rate as of" ||
  containsS line_lower "interest rate applied to" ||
  containsS line_lower "change in interest rate"

/-- Bare prefix match `^(\d{1,2}\s+[A-Za-z]{3})` used as a collection stop. -/
def dateStartPre (l : List Char) : Bool :=
  (Rx.matchDayMonWith Rx.matchMon3 l).isSome

/-- A line terminates the block collection (lines 446-451 of the script). -/
def stopsCollect (line : String) : Bool :=
  (dateStandalone? line.data).isSome || (dateYearStandalone? line.data).isSome ||
  dateStartPre line.data || skip_line_patterns_hit (lower line)

/-- Collect the block lines following the date line; also returns how many
lines were consumed, so the caller can resume at the stopping line. -/
def collectLines : List String → List String × Nat
  | [] => ([], 0)
  | x :: rest =>
    if stopsCollect x then ([], 0)
    else
      let (c, n) := collectLines rest
      (x :: c, n + 1)

/-- Match `^-\s*([\d,]+\.?\d*)\s*$` and return the first group. -/
def negMatch (line : String) : Option String :=
  match line.data with
  | '-' :: r =>
    let r := r.dropWhile isWs
    match Rx.matchNumCore r with
    | some (num, rest) => if rest.all isWs then some ⟨num⟩ else none
    | none => none
  | _ => none

/-- Match `^([\d,]+\.?\d*)\s*$` and return the first group. -/
def standaloneNum (line : String) : Option String :=
  match Rx.matchNumCore line.data with
  | some (num, rest) => if rest.all isWs then some ⟨num⟩ else none
  | none => none

/-- Match `^[\$]?\s*([\d,]+\.\d{2})\s*$` and return the first group. -/
def dollarAmount (line : String) : Option String :=
  let l := match line.data with | '$' :: t => t | t => t
  let l := l.dropWhile isWs
  match Rx.matchAmt2 l with
  | some (num, rest) => if rest.all isWs then some ⟨num⟩ else none
  | none => none

/-- Prefix match `^[\$]?\s*[\d,]+\.\d{2}` (nothing required after). -/
def dollarAmountPre (line : String) : Bool :=
  let l := match line.data with | '$' :: t => t | t => t
  let l := l.dropWhile isWs
  (Rx.matchAmt2 l).isSome

/-- Match `^[\$]?\s*([\d,]+\.?\d*)\s*$` and return the first group. -/
def positiveMatch (line : String) : Option String :=
  let l := match line.data with | '$' :: t => t | t => t
  let l := l.dropWhile isWs
  match Rx.matchNumCore l with
  | some (num, rest) => if rest.all isWs then some ⟨num⟩ else none
  | none => none

/-- Match `^\([\d,]+\.?\d*\)\s*$`. -/
def parenFull (line : String) : Bool :=
  match line.data with
  | '(' :: r =>
    match Rx.matchNumCore r with
    | some (_, rest) =>
      match rest with
      | ')' :: rest2 => rest2.all isWs
      | _ => false
    | none => false
  | _ => false

/-- Search `\(([\d,]+\.?\d*)\)` and return the first group. -/
def parenInner (line : String) : Option String :=
  (Rx.searchL
    (fun l =>
      match l with
      | '(' :: r =>
        match Rx.matchNumCore r with
        | some (num, rest) =>
          match rest with
          | ')' :: rest2 => some ((⟨num⟩ : String), rest2)
          | _ => none
        | none => none
      | _ => none)
    line.data).map (fun x => x.2.1)

/-- Search `[\$]?\s*([\d,]+\.?\d*)\s*(DR|CR)` with IGNORECASE: an optional
dollar and whitespace add nothing to a position-by-position search, so the
gate is a number core followed by whitespace and a DR/CR pair. -/
def balanceGate (line : String) : Bool :=
  (Rx.searchL
    (fun l =>
      match Rx.matchNumCore l with
      | some (_, rest) =>
        let rest := rest.dropWhile isWs
        match rest with
        | a :: b :: r2 =>
          if (a.toLower = 'd' || a.toLower = 'c') && b.toLower = 'r' then
            some ((), r2)
          else none
        | _ => none
      | none => none)
    line.data).isSome

def hasAlpha (line : String) : Bool := line.data.any isAlphaC

/-- Python `line.lower().strip()` membership in `('nil','nill','nil.','$')`
together with the falsy test. -/
def isNoiseLine (line_lower : String) : Bool :=
  line_lower = "" || line_lower = "nil" || line_lower = "nill" ||
  line_lower = "nil." || line_lower = "$"

end CbaAccount

namespace CbaAccount

open StrUtil

/-- An emitted output row of `parse_transactions`. -/
structure Row where
  date : String
  transaction : String
  amount : Option Flt
  balance : Option Flt
deriving Repr, DecidableEq

/-- Mutable state of the second classification pass over a block. -/
structure BlockSt where
  parts : List String
  debit : Option Flt
  credit : Option Flt
  balance : Option Flt
  balance_is_debit : Bool
deriving Repr, DecidableEq

/-- First pass over the collected block lines (lines 460-552 of the script):
gather description lines, stopping at the first line that is clearly an
amount; returns the description parts and the index to resume from. -/
def firstPassAux (collected : List String) :
    Nat → Nat → List String → List String × Nat
  | 0, line_idx, parts => (parts, line_idx)
  | fuel + 1, line_idx, parts =>
  if line_idx < collected.length then
    let line := collected.getD line_idx ""
    let line_lower := strip (lower line)
    if isNoiseLine line_lower then firstPassAux collected fuel (line_idx + 1) parts
    else if hasAlpha line then firstPassAux collected fuel (line_idx + 1) (parts ++ [line])
    else if (negMatch line).isSome then (parts, line_idx)
    else if balanceGate line then (parts, line_idx)
    else if (dollarAmount line).isSome &&
        ((line_idx + 1 < collected.length &&
          (let next_line := collected.getD (line_idx + 1) ""
           containsS (lower next_line) "dr" || containsS (lower next_line) "cr" ||
           startsWithS (strip next_line) "$")) ||
         parts ≠ []) then
      (parts, line_idx)
    else
      match standaloneNum line with
      | some g =>
        let number_str := dropChar ',' g
        let isId := !containsS number_str "." && number_str.length ≥ 6
        if isId && line_idx + 1 < collected.length &&
            strip (collected.getD (line_idx + 1) "") = "$" &&
            line_idx + 2 < collected.length &&
            dollarAmountPre (strip (collected.getD (line_idx + 2) "")) then
          firstPassAux collected fuel (line_idx + 1) (parts ++ [line])
        else if isId && number_str.length > 10 then
          firstPassAux collected fuel (line_idx + 1) (parts ++ [line])
        else if line_idx + 1 < collected.length &&
            (strip (collected.getD (line_idx + 1) "") = "(" ||
             strip (collected.getD (line_idx + 1) "") = "$") then
          (parts, line_idx)
        else if containsS number_str "." && parts ≠ [] then
          if line_idx + 1 < collected.length &&
              hasAlpha (collected.getD (line_idx + 1) "") then
            firstPassAux collected fuel (line_idx + 1) (parts ++ [line])
          else (parts, line_idx)
        else if parenFull line then (parts, line_idx)
        else firstPassAux collected fuel (line_idx + 1) (parts ++ [line])
      | none =>
        if parenFull line then (parts, line_idx)
        else firstPassAux collected fuel (line_idx + 1) (parts ++ [line])
  else (parts, line_idx)

/-- First pass, with ample fuel (the loop advances by one line per step). -/
def firstPass (collected : List String) (line_idx : Nat)
    (parts : List String) : List String × Nat :=
  firstPassAux collected (collected.length + 1) line_idx parts

/-- The credit/balance decision tree of the second pass (lines 639-669). -/
def creditBalanceTree (st : BlockSt) (amt : Flt) : BlockSt :=
  if st.parts ≠ [] && st.debit = none && st.credit = none then
    if Flt.beq amt Flt.zero then
      { st with balance := some amt, balance_is_debit := false }
    else { st with credit := some amt }
  else if st.debit ≠ none && st.credit = none then
    if Flt.beq amt Flt.zero then
      { st with balance := some amt, balance_is_debit := false }
    else { st with credit := some amt }
  else if st.credit ≠ none && st.balance = none then
    { st with balance := some amt, balance_is_debit := false }
  else if st.balance = none && st.parts = [] then
    if st.credit = none then { st with credit := some amt }
    else { st with balance := some amt, balance_is_debit := false }
  else if st.parts ≠ [] && st.balance = none then
    { st with balance := some amt, balance_is_debit := false }
  else st

/-- Second pass over the remaining block lines (lines 555-675): pick up the
debit, credit and balance amounts. -/
def secondPassAux (collected : List String) : Nat → Nat → BlockSt → BlockSt
  | 0, _, st => st
  | fuel + 1, line_idx, st =>
  if line_idx < collected.length then
    let line := collected.getD line_idx ""
    let line_lower := strip (lower line)
    if isNoiseLine line_lower then secondPassAux collected fuel (line_idx + 1) st
    else
      match negMatch line with
      | some g =>
        let st :=
          if st.debit = none then { st with debit := Core.parse_amount g } else st
        secondPassAux collected fuel (line_idx + 1) st
      | none =>
        let oneB : Option BlockSt :=
          match standaloneNum line with
          | some g =>
            if line_idx + 1 < collected.length &&
                (strip (collected.getD (line_idx + 1) "") = "(" ||
                 strip (collected.getD (line_idx + 1) "") = "$") then
              match Core.parse_amount g with
              | some amt =>
                if Flt.blt Flt.zero amt && st.debit = none then
                  some { st with debit := some amt }
                else none
              | none => none
            else none
          | none => none
        match oneB with
        | some st2 => secondPassAux collected fuel (line_idx + 2) st2
        | none =>
          if parenFull line then
            let st :=
              match parenInner line, st.debit with
              | some g, none => { st with debit := Core.parse_amount g }
              | _, _ => st
            secondPassAux collected fuel (line_idx + 1) st
          else if strip line = "(" || strip line = "$" then
            secondPassAux collected fuel (line_idx + 1) st
          else if balanceGate line then
            let (b, bd) := Core.parse_balance_with_dr_cr line
            secondPassAux collected fuel (line_idx + 1)
              { st with balance := b, balance_is_debit := bd }
          else if containsS line_lower "dr" || containsS line_lower "cr" then
            let (b, bd) := Core.parse_balance_with_dr_cr line
            secondPassAux collected fuel (line_idx + 1)
              { st with balance := b, balance_is_debit := bd }
          else
            match positiveMatch line with
            | some g =>
              let number_str := dropChar ',' g
              if !containsS number_str "." && number_str.length > 10 then
                if st.parts ≠ [] then
                  secondPassAux collected fuel (line_idx + 1)
                    { st with parts := st.parts ++ [line] }
                else secondPassAux collected fuel (line_idx + 1) st
              else
                match Core.parse_amount g with
                | some amt =>
                  if Flt.ble Flt.zero amt then
                    secondPassAux collected fuel (line_idx + 1) (creditBalanceTree st amt)
                  else secondPassAux collected fuel (line_idx + 1) st
                | none => secondPassAux collected fuel (line_idx + 1) st
            | none =>
              secondPassAux collected fuel (line_idx + 1)
                { st with parts := st.parts ++ [line] }
  else st

/-- Second pass, with ample fuel. -/
def secondPass (collected : List String) (line_idx : Nat) (st : BlockSt) :
    BlockSt :=
  secondPassAux collected (collected.length + 1) line_idx st

/-- Python `re.sub(r'\s*\(\s*$', '', s)`: cut a trailing lone parenthesis. -/
def removeTrailingParen (s : String) : String :=
  match Rx.searchL
    (fun l =>
      let r := l.dropWhile isWs
      match r with
      | '(' :: r2 => if r2.all isWs then some ((), ([] : List Char)) else none
      | _ => none)
    s.data with
  | some (pre, _, _) => ⟨pre⟩
  | none => s

/-- Finish a block (lines 677-705): join and clean the description, decide
the signed amount and the signed balance, and build the row when either is
present; `none` if the block is skipped or carries no figures. -/
def finalizeBlock (formatted_date : String) (st : BlockSt) : Option Row :=
  let transaction := strip (joinSp st.parts)
  let transaction := strip (removeTrailingParen transaction)
  let tl := lower transaction
  if containsS tl "opening balance" || containsS tl "closing balance" then none
  else
    let amount : Option Flt :=
      match st.debit with
      | some d =>
        if Flt.blt Flt.zero d then some (Flt.neg d)
        else
          match st.credit with
          | some c => if Flt.blt Flt.zero c then some c else none
          | none => none
      | none =>
        match st.credit with
        | some c => if Flt.blt Flt.zero c then some c else none
        | none => none
    let balance : Option Flt :=
      st.balance.map (fun b =>
        if st.balance_is_debit then Flt.neg (Flt.abs b) else Flt.abs b)
    if amount.isSome || balance.isSome then
      some ⟨formatted_date, transaction, amount, balance⟩
    else none

/-- Header detection (lines 342-375).  Returns the number of extra lines to
skip beyond the current one: branch one (`date` and `transaction` on one
line) skips 4 in total, the multi-line branch skips 5, and the third source
branch (unreachable, since its guard repeats the second branch's test) would
skip 3. -/
def headerCheck (lines : List String) (i : Nat) : Option Nat :=
  let line := lines.getD i ""
  let line_lower := lower line
  if containsS line_lower "date" && containsS line_lower "transaction" then
    some 3
  else if strip line_lower = "date" then
    if i + 4 < lines.length then
      let next_lines :=
        joinSp ((List.range 4).map (fun j => lower (lines.getD (i + 1 + j) "")))
      if containsS next_lines "transaction" &&
          (containsS next_lines "debit" || containsS next_lines "credit") &&
          containsS next_lines "balance" then
        some 4
      else none
    else none
  else if (if i + 1 < lines.length then
      strip line_lower = "date" &&
        containsS (lower (lines.getD (i + 1) "")) "transaction"
    else false) then
    if i + 2 < lines.length && containsS (lower (lines.getD (i + 2) "")) "debit" then
      some 2
    else none
  else none

/-- Cursor state threaded through the pages. -/
structure ScanSt where
  rows : List Row
  current_year : Int
  last_month : Option Nat
deriving Repr, DecidableEq

/-- The per-page line loop of `parse_transactions` (lines 333-710). -/
def scanLinesAux (lines : List String) :
    Nat → Nat → Bool → Bool → ScanSt → ScanSt
  | 0, _, _, _, st => st
  | fuel + 1, i, header_found, table_started, st =>
  if i < lines.length then
    let line := lines.getD i ""
    let line_lower := lower line
    if skip_line_patterns_hit line_lower then
      scanLinesAux lines fuel (i + 1) header_found table_started st
    else
      match (if header_found then none else headerCheck lines i) with
      | some k => scanLinesAux lines fuel (i + 1 + k) true true st
      | none =>
        if !table_started then
          scanLinesAux lines fuel (i + 1) header_found table_started st
        else
          let res := resolveDateLine line st.current_year st.last_month
          match res.formatted with
          | some fd =>
            let parts := StrUtil.splitSlash fd
            let (cy, lm) :=
              if parts.length = 3 then
                ((parseInt? (parts.getD 2 "").data).getD res.year,
                 match parseNat? (stripL (parts.getD 1 "").data) with
                 | some m => some m
                 | none => st.last_month)
              else (res.year, st.last_month)
            let (collected, n) := collectLines (lines.drop (i + 1))
            let parts0 : List String :=
              match res.transStart with
              | some ts => if ts ≠ "" then [ts] else []
              | none => []
            let (parts1, k) := firstPass collected 0 parts0
            let bst := secondPass collected k
              { parts := parts1, debit := none, credit := none,
                balance := none, balance_is_debit := false }
            let rows2 :=
              match finalizeBlock fd bst with
              | some row => st.rows ++ [row]
              | none => st.rows
            scanLinesAux lines fuel (i + 1 + n) header_found table_started
              { rows := rows2, current_year := cy, last_month := lm }
          | none =>
            scanLinesAux lines fuel (i + 1) header_found table_started
              { st with current_year := res.year }
  else st

/-- The per-page loop, with ample fuel. -/
def scanLines (lines : List String) (i : Nat)
    (header_found table_started : Bool) (st : ScanSt) : ScanSt :=
  scanLinesAux lines (lines.length + 1) i header_found table_started st

/-- A notice-letter page, to be skipped (lines 294-300). -/
def is_notice_letter_page (page_text : String) : Bool :=
  let tl := lower page_text
  containsS tl "notice of increase to repayments for your home loan" ||
  (containsS tl "yours sincerely" && containsS tl "the commbank team")

def pageText (page : List String) : String := String.intercalate "\n" page

/-- First statement page as found by `parse_transactions` (lines 302-314). -/
def firstStatementPageTx (doc : List (List String)) : Option Nat :=
  (List.range doc.length).find? (fun p =>
    let t := pageText (doc.getD p [])
    !is_notice_letter_page t &&
    (containsS (lower t) "everyday offset" || containsS (lower t) "smart access" ||
     containsS (lower t) "netbank saver" || containsS (lower t) "your statement"))

/-- The script's `parse_transactions`, over the extracted page lines.  The
source raises nothing on a missing transaction-table header: with no header
the table never starts and the row list stays empty. -/
def parse_transactions (doc : List (List String)) (year : Int) : List Row :=
  if doc.isEmpty then []
  else
    match firstStatementPageTx doc with
    | none => []
    | some startIdx =>
      (((doc.drop startIdx).foldl
        (fun st page => scanLines page 0 false false st)
        { rows := [], current_year := year, last_month := none })).rows

end CbaAccount

namespace Core

open StrUtil

/-- Round `n / d` to the nearest integer, ties to even (the rounding of
Python's `format`). -/
def halfEvenDiv (n d : Nat) : Nat :=
  let q := n / d
  let r := n % d
  if d < 2 * r then q + 1
  else if 2 * r < d then q
  else if q % 2 = 0 then q else q + 1

/-- Python `f"{q:.2f}"` on the exact decimal model. -/
def qFormat2 (q : Flt) : String :=
  let neg := q.num < 0
  let n := q.num.natAbs
  let cents : Nat :=
    if q.exp ≤ 2 then n * (tenPow (2 - q.exp)).toNat
    else halfEvenDiv n (tenPow (q.exp - 2)).toNat
  let s := toString (cents / 100) ++ "." ++ pad2 (cents % 100)
  if neg then "-" ++ s else s

def fmtOpt2 (q : Option Flt) : String :=
  match q with
  | some v => qFormat2 v
  | none => ""

end Core

namespace CbaAccount

open StrUtil

/-- The script's `write_tsv`, modelled as the written character stream. -/
def write_tsv (rows : List Row) (account_number : String) : String :=
  "Date\tAccount Number\tTransaction\tAmount\tBalance\n" ++
  String.join (rows.map (fun r =>
    r.date ++ "\t" ++ account_number ++ "\t" ++ r.transaction ++ "\t" ++
    Core.fmtOpt2 r.amount ++ "\t" ++ Core.fmtOpt2 r.balance ++ "\n"))

/-- First statement page as found by `extract_first_page_info` (lines 69-89):
like the transaction scan but without the `your statement` marker. -/
def firstStatementPageExtract (doc : List (List String)) : Option Nat :=
  (List.range doc.length).find? (fun p =>
    let t := pageText (doc.getD p [])
    !is_notice_letter_page t &&
    (containsS (lower t) "everyday offset" || containsS (lower t) "smart access" ||
     containsS (lower t) "netbank saver"))

/-- Characters of the `[\d\s-]` class. -/
def isAcctClass (c : Char) : Bool := isDigitC c || isWs c || c = '-'

/-- Match `(?i)account\s+number` anchored at the given position, returning
the remainder after `number`. -/
def matchAcctLabel (l : List Char) : Option (Unit × List Char) :=
  match Rx.matchLitCI "account".data l with
  | some r1 =>
    match Rx.matchWsPlus r1 with
    | some (_, r2) =>
      match Rx.matchLitCI "number".data r2 with
      | some r3 => some ((), r3)
      | none => none
    | none => none
  | none => none

/-- Greedy-with-backtracking split of `[:\s]+([\d\s-]{6,})`: try longest
separator first, shrinking until the class run reaches six characters. -/
def tryAcctJ (rest : List Char) : Nat → Option (List Char)
  | 0 => none
  | j + 1 =>
    let cls := ((rest.drop (j + 1)).takeWhile isAcctClass)
    if cls.length ≥ 6 then some cls else tryAcctJ rest j

/-- Search `(?i)account\s+number[:\s]+([\d\s-]{6,})`, returning group 1. -/
def searchAcctInline (l : List Char) : Option (List Char) :=
  match Rx.searchL
    (fun l =>
      match matchAcctLabel l with
      | some (_, rest) =>
        let k := (rest.takeWhile (fun c => c = ':' || isWs c)).length
        if k = 0 then none
        else (tryAcctJ rest k).map (fun g => (g, ([] : List Char)))
      | none => none)
    l with
  | some (_, g, _) => some g
  | none => none

/-- The account-number loop of `extract_first_page_info` (lines 135-153). -/
def findAccountNumberAux (lines : List String) : Nat → Nat → Option String
  | 0, _ => none
  | fuel + 1, i =>
  if i < lines.length then
    let line := lines.getD i ""
    if (Rx.searchL matchAcctLabel line.data).isSome then
      match searchAcctInline line.data with
      | some g => some ⟨Rx.collapseWs (stripL g)⟩
      | none =>
        let next_line := strip (lines.getD (i + 1) "")
        if i + 1 < lines.length && next_line.data.all isAcctClass &&
            next_line.data.length ≥ 6 && next_line.data ≠ [] then
          some (strip ⟨Rx.collapseWs next_line.data⟩)
        else findAccountNumberAux lines fuel (i + 1)
    else findAccountNumberAux lines fuel (i + 1)
  else none

/-- The account-number loop, with ample fuel. -/
def findAccountNumber (lines : List String) (i : Nat) : Option String :=
  findAccountNumberAux lines (lines.length + 1) i

/-- Search for the statement period
`(\d{1,2}\s+[A-Za-z]{3}\s+\d{4})\s*-\s*(\d{1,2}\s+[A-Za-z]{3}\s+\d{4})`;
returns the whole match and the four-digit year of the start date. -/
def searchPeriod (l : List Char) : Option (String × Option Nat) :=
  match Rx.searchL
    (fun l =>
      match Rx.matchDayMonYearWith Rx.matchMon3 l with
      | none => none
      | some (t1, r1) =>
        let (w3, r2) := Rx.runOf isWs r1
        match r2 with
        | '-' :: r3 =>
          let (w4, r4) := Rx.runOf isWs r3
          match Rx.matchDayMonYearWith Rx.matchMon3 r4 with
          | none => none
          | some (t2, r5) =>
            let g0 := t1.chars ++ w3 ++ '-' :: w4 ++ t2.chars
            some ((g0, Rx.search4Digits t1.chars), r5)
        | _ => none)
    l with
  | some (_, (g0, y), _) => some (⟨g0⟩, y)
  | none => none

/-- The period loop of `extract_first_page_info` (lines 155-168): take the
first line with a period match. -/
def findPeriod (lines : List String) : Option (String × Option Nat) :=
  match lines with
  | [] => none
  | x :: rest =>
    match searchPeriod x.data with
    | some r => some r
    | none => findPeriod rest

/-- The script's `extract_first_page_info`: validates the document and pulls
the account number, period string and starting year; errors model the
`ValueError`s the source raises. -/
def extract_first_page_info (doc : List (List String)) :
    Except String (String × String × Int) :=
  if doc.isEmpty then .error "PDF has no pages"
  else
    match firstStatementPageExtract doc with
    | none => .error "This does not appear to be a CBA Everyday Account statement."
    | some idx =>
      let lines := doc.getD idx []
      let text_lower := lower (joinSp lines)
      if !(containsS text_lower "everyday offset" ||
           containsS text_lower "smart access" ||
           containsS text_lower "netbank saver") then
        .error "This does not appear to be a CBA Everyday Account statement."
      else
        let account_number := (findAccountNumber lines 0).getD ""
        match findPeriod lines with
        | some (period, some y) => .ok (account_number, period, (y : Int))
        | _ => .error "Could not find statement period on first page"

/-- The whole conversion pipeline of `main`: validate the first page, then
parse; a missing transaction-table header is not a failure. -/
def convert (doc : List (List String)) : Except String (List Row) :=
  match extract_first_page_info doc with
  | .error e => .error e
  | .ok (_, _, year) => .ok (parse_transactions doc year)

end CbaAccount

/-! Embedding of `cba/cba_mastercard2tsv.py` (the parts the claims touch:
amount parsing, the per-record running-balance update, TSV serialisation). -/

namespace CbaMastercard

open StrUtil

/-- The Mastercard `parse_amount` (lines 308-328): remove `$` and commas; a
trailing minus marks a credit; returns the absolute amount and the credit
flag. -/
def parse_amount (amount_str : String) : Option Flt × Bool :=
  if amount_str = "" then (none, false)
  else
    let cleaned := strip (dropChar ',' (dropChar '$' amount_str))
    let is_credit := endsWithS cleaned "-"
    let cleaned :=
      if is_credit then strip ⟨(cleaned.data.reverse.dropWhile (fun c => c = '-')).reverse⟩
      else cleaned
    match pyFloat? cleaned with
    | some amount => (some (Flt.abs amount), is_credit)
    | none => (none, false)

/-- The Mastercard `parse_date_dd_mmm`: regex `^(\d{1,2})\s+([A-Za-z]{3})$`
(no trailing whitespace allowed), with the same rollover rule. -/
def parse_date_dd_mmm (date_str : String) (current_year : Int)
    (last_month : Option Nat) : Option String :=
  match Rx.matchDayMonWith Rx.matchMon3 (stripL date_str.data) with
  | none => none
  | some (t, rest) =>
    if rest = [] then
      match Core.monthLookup t.mon with
      | none => none
      | some m =>
        let year :=
          match last_month with
          | some lm => if m < lm then current_year + 1 else current_year
          | none => current_year
        some (Core.formatDate (natOfDigits t.day) m year)
    else none

/-- `amount_pattern`: `^([\d,]+\.\d{2})\s*(-?)\s*$|^([\d,]+)\s*(-?)\s*$`;
returns the amount group and whether a trailing minus was present. -/
def amountPattern (line : String) : Option (String × Bool) :=
  let tail := fun (rest : List Char) =>
    let r := rest.dropWhile isWs
    match r with
    | '-' :: r2 => if r2.all isWs then some true else none
    | r2 => if r2.all isWs then some false else none
  let alt1 :=
    match Rx.matchAmt2 line.data with
    | some (num, rest) => (tail rest).map (fun m => ((⟨num⟩ : String), m))
    | none => none
  match alt1 with
  | some r => some r
  | none =>
    let (cd, rest) := Rx.runOf isDigComma line.data
    if cd.isEmpty then none
    else (tail rest).map (fun m => ((⟨cd⟩ : String), m))

/-- An emitted Mastercard row: `[formatted_date, transaction, amount,
is_cred, running_balance]`. -/
structure McRow where
  date : Option String
  transaction : String
  amount : Flt
  is_credit : Bool
  balance : Flt
deriving Repr, DecidableEq

/-- The running-balance update of `parse_transactions` (lines 449-453):
credits reduce the debt (the balance is sign-flipped), debits increase it. -/
def updateBalance (running_balance : Flt) (amount : Flt) (is_cred : Bool) :
    Flt :=
  if is_cred then Flt.add running_balance amount
  else Flt.sub running_balance amount

/-- The signed amount the TSV writer emits for a row (lines 612-617):
credits positive, debits negative. -/
def signedAmount (amount : Flt) (is_credit : Bool) : Flt :=
  if is_credit then amount else Flt.neg amount

/-- Finalising a pending transaction (lines 432-457): parse the date and the
amount, update the cursor and the running balance, and emit the row; with an
unparseable amount nothing is emitted and the balance is unchanged. -/
def finalizeTransaction (date_str : String) (trans_parts : List String)
    (amt_str : String) (is_cred : Bool) (current_year : Int)
    (last_month : Option Nat) (running_balance : Flt) :
    Option McRow × Int × Option Nat × Flt :=
  let formatted_date := parse_date_dd_mmm date_str current_year last_month
  let cy : Int :=
    match formatted_date with
    | some fd =>
      let parts := StrUtil.splitSlash fd
      if parts.length = 3 then (parseInt? (parts.getD 2 "").data).getD current_year
      else current_year
    | none => current_year
  let lm : Option Nat :=
    match formatted_date with
    | some fd =>
      let parts := StrUtil.splitSlash fd
      if parts.length = 3 then
        match parseNat? (stripL (parts.getD 1 "").data) with
        | some m => some m
        | none => last_month
      else last_month
    | none => last_month
  let transaction := strip (joinSp trans_parts)
  match (parse_amount amt_str).1 with
  | some amount =>
    let rb := updateBalance running_balance amount is_cred
    (some ⟨formatted_date, transaction, amount, is_cred, rb⟩, cy, lm, rb)
  | none => (none, cy, lm, running_balance)

/-- The Mastercard `write_tsv`: note the `Card Number` column header. -/
def write_tsv (rows : List McRow) (card_number : String) : String :=
  "Date\tCard Number\tTransaction\tAmount\tBalance\n" ++
  String.join (rows.map (fun r =>
    (match r.date with | some d => d | none => "None") ++ "\t" ++ card_number ++
    "\t" ++ r.transaction ++ "\t" ++
    (if r.is_credit then Core.qFormat2 r.amount else "-" ++ Core.qFormat2 r.amount) ++
    "\t" ++ Core.qFormat2 r.balance ++ "\n"))

end CbaMastercard

/-! Embedding of `nab/nab_offset2tsv.py`. -/

namespace NabOffset

open StrUtil

/-- The NAB `parse_date_dd_mmm_yyyy`: first the full-date regex
`^(\d{1,2})\s+([A-Za-z]{3,})\s+(\d{4})\s*$`, then the yearless
`^(\d{1,2})\s+([A-Za-z]{3})\s*$` with the rollover rule. -/
def parse_date_dd_mmm_yyyy (date_str : String) (current_year : Int)
    (last_month : Option Nat) : Option String :=
  let l := stripL date_str.data
  let full : Option Rx.DateTokY :=
    match Rx.matchDayMonYearWith Rx.matchMonLoose l with
    | some (t, rest) => if Rx.closeStandalone rest then some t else none
    | none => none
  match full with
  | some t =>
    match Core.monthLookup t.mon with
    | none => none
    | some m =>
      some (Core.formatDate (natOfDigits t.day) m ((natOfDigits t.year : Int)))
  | none =>
    match Rx.matchDayMonWith Rx.matchMon3 l with
    | none => none
    | some (t, rest) =>
      if Rx.closeStandalone rest then
        match Core.monthLookup t.mon with
        | none => none
        | some m =>
          let year :=
            match last_month with
            | some lm => if m < lm then current_year + 1 else current_year
            | none => current_year
          some (Core.formatDate (natOfDigits t.day) m year)
      else none

/-- `is_footer_line`. -/
def is_footer_line (line : String) : Bool :=
  containsS (lower line) "statement number" &&
  containsS (lower line) "national australia bank"

def footerFilter (lines : List String) : List String :=
  lines.filter (fun l => !is_footer_line l)

/-- `date_pattern`: `^(\d{1,2}\s+[A-Za-z]{3,})\s*$`. -/
def dateStandalone? (l : List Char) : Option Rx.DateTok :=
  match Rx.matchDayMonWith Rx.matchMonLoose l with
  | some (t, rest) => if Rx.closeStandalone rest then some t else none
  | none => none

/-- `date_with_year_pattern`: `^(\d{1,2}\s+[A-Za-z]{3,}\s+\d{4})\s*$`. -/
def dateYearStandalone? (l : List Char) : Option Rx.DateTokY :=
  match Rx.matchDayMonYearWith Rx.matchMonLoose l with
  | some (t, rest) => if Rx.closeStandalone rest then some t else none
  | none => none

/-- `^(\d{1,2}\s+[A-Za-z]{3,}\s+\d{4})\s+(.+)`. -/
def dateAtStartYear? (l : List Char) : Option (Rx.DateTokY × List Char) :=
  match Rx.matchDayMonYearWith Rx.matchMonLoose l with
  | some (t, rest) => (Rx.closeAtStart rest).map (fun g2 => (t, g2))
  | none => none

/-- `^(\d{1,2}\s+[A-Za-z]{3,})\s+(.+)`. -/
def dateAtStart? (l : List Char) : Option (Rx.DateTok × List Char) :=
  match Rx.matchDayMonWith Rx.matchMonLoose l with
  | some (t, rest) => (Rx.closeAtStart rest).map (fun g2 => (t, g2))
  | none => none

/-- Result of the date-recognition block (lines 466-508). -/
structure NabDateResolve where
  formatted : Option String
  year : Int
  transStart : Option String
deriving Repr, DecidableEq

/-- The `re.match` extraction of the `DD MMM` part (loose month letters) of
a year-bearing token. -/
def yearTokenDateStr (chars : List Char) : List Char :=
  match Rx.matchDayMonWith Rx.matchMonLoose chars with
  | some (t, _) => t.chars
  | none => []

/-- The date-recognition block of the NAB scan: for a year-bearing token the
year is extracted and, when the month abbreviation is known, the date is
assembled directly from the token's own day, month and year (no rollover);
otherwise `parse_date_dd_mmm_yyyy` is the fallback. -/
def resolveDateLine (line : String) (current_year : Int)
    (last_month : Option Nat) : NabDateResolve :=
  let l := line.data
  let yearBranch := fun (chars : List Char) (transStart : Option String) =>
    let extracted_year := Rx.search4Digits chars
    let cy :=
      match extracted_year with
      | some y => (y : Int)
      | none => current_year
    let date_str : List Char := yearTokenDateStr chars
    match extracted_year with
    | some y =>
      let day := (Rx.matchLeadingDigits12 date_str).getD 0
      let mon := (Rx.searchLetters3 date_str).getD []
      match Core.monthLookup mon with
      | some m =>
        if m ≠ 0 then
          ⟨some (Core.formatDate day m (y : Int)), cy, transStart⟩
        else
          ⟨parse_date_dd_mmm_yyyy ⟨date_str⟩ cy last_month, cy, transStart⟩
      | none =>
        ⟨parse_date_dd_mmm_yyyy ⟨date_str⟩ cy last_month, cy, transStart⟩
    | none =>
      ⟨parse_date_dd_mmm_yyyy ⟨date_str⟩ cy last_month, cy, transStart⟩
  match dateAtStartYear? l, dateYearStandalone? l with
  | some (t, g2), _ => yearBranch t.chars (some (strip ⟨g2⟩))
  | none, some t => yearBranch t.chars none
  | none, none =>
    match dateAtStart? l, dateStandalone? l with
    | some (t, g2), _ =>
      ⟨parse_date_dd_mmm_yyyy ⟨t.chars⟩ current_year last_month, current_year,
        some (strip ⟨g2⟩)⟩
    | none, some t =>
      ⟨parse_date_dd_mmm_yyyy ⟨t.chars⟩ current_year last_month, current_year,
        none⟩
    | none, none => ⟨none, current_year, none⟩

/-- Search `[\$]?\s*([\d,]+\.\d{2})\s*(DR|CR|Dr|Cr)` with IGNORECASE; returns
the amount group and whether the suffix is DR. -/
def searchMoneyDrCr (l : List Char) : Option (String × Bool) :=
  (Rx.searchL
    (fun l =>
      let l := match l with | '$' :: t => t | t => t
      let l := l.dropWhile isWs
      match Rx.matchAmt2 l with
      | some (num, rest) =>
        let rest := rest.dropWhile isWs
        match rest with
        | a :: b :: r2 =>
          if (a.toLower = 'd' || a.toLower = 'c') && b.toLower = 'r' then
            some (((⟨num⟩ : String), a.toLower == 'd'), r2)
          else none
        | _ => none
      | none => none)
    l).map (fun x => x.2.1)

/-- The opening-balance scan over the first page (lines 379-392); the page
lines here are not footer-filtered in the source. -/
def openingBalanceAux (first_page_lines : List String) :
    Nat → Nat → Option Flt
  | 0, _ => none
  | fuel + 1, i =>
  if i < first_page_lines.length then
    let line := first_page_lines.getD i ""
    if containsS (lower line) "opening balance" && i + 1 < first_page_lines.length then
      match searchMoneyDrCr (first_page_lines.getD (i + 1) "").data with
      | some (g, is_debit) =>
        match Core.parse_amount g with
        | some v => some (if is_debit then Flt.neg v else v)
        | none => openingBalanceAux first_page_lines fuel (i + 1)
      | none => openingBalanceAux first_page_lines fuel (i + 1)
    else openingBalanceAux first_page_lines fuel (i + 1)
  else none

/-- The opening-balance scan, with ample fuel. -/
def openingBalance (first_page_lines : List String) (i : Nat) : Option Flt :=
  openingBalanceAux first_page_lines (first_page_lines.length + 1) i

/-- Star-decoration skip: `'****' in line and line.count('*') > 10`. -/
def starsLine (line : String) : Bool :=
  containsS line "****" && line.data.count '*' > 10

/-- Skip terms of the top-level scan (lines 448-454). -/
def scanSkipTerms (line_lower : String) : Bool :=
  containsS line_lower "if a charge is incorrect" ||
  containsS line_lower "if you have any queries" ||
  containsS line_lower "carried forward" ||
  containsS line_lower "transaction details" ||
  containsS line_lower "transaction details (continued)"

/-- Skip phrases of the collection loop (lines 633-646). -/
def collectSkipPhrases (next_lower : String) : Bool :=
  containsS next_lower "for further information call" ||
  containsS next_lower "for personal accounts or" ||
  containsS next_lower "for business accounts" ||
  containsS next_lower "nab offset home loan for further" ||
  containsS next_lower "nab offset home loan for fur" ||
  containsS next_lower "nab classic banking" ||
  containsS next_lower "if a charge is incorrect" ||
  containsS next_lower "you may be entitled to a refund" ||
  containsS next_lower "you should act quickly" ||
  containsS next_lower "please call 13 22 65" ||
  containsS next_lower "nab.com.au/terms" ||
  containsS next_lower "disputed transactions"

/-- Search `(\.{3,})\s*([\d,]+\.\d{2})\s*$`: leftmost dot run of length at
least three, optional whitespace, a two-decimal amount, then the line end;
returns the dot-run length and the amount group. -/
def dotsAmountSearch (line : String) : Option (Nat × String) :=
  (Rx.searchL
    (fun l =>
      let (dots, r1) := Rx.runOf (fun c => c = '.') l
      if dots.length < 3 then none
      else
        let (_, r2) := Rx.runOf isWs r1
        match Rx.matchAmt2 r2 with
        | some (num, rest) =>
          if rest.all isWs then some ((dots.length, (⟨num⟩ : String)), [])
          else none
        | none => none)
    line.data).map (fun x => x.2.1)

/-- The same search, but with the dot count of the second pattern
(line 827): `len(group(0).split(amount)[0])`, i.e. dots plus the blanks
before the amount. -/
def dotsAmountSearchWithWs (line : String) : Option (Nat × String) :=
  (Rx.searchL
    (fun l =>
      let (dots, r1) := Rx.runOf (fun c => c = '.') l
      if dots.length < 3 then none
      else
        let (w, r2) := Rx.runOf isWs r1
        match Rx.matchAmt2 r2 with
        | some (num, rest) =>
          if rest.all isWs then
            some ((dots.length + w.length, (⟨num⟩ : String)), [])
          else none
        | none => none)
    line.data).map (fun x => x.2.1)

/-- `re.sub(r'\.{3,}.*$', '', line).strip()`: cut at the first run of three
dots, then strip. -/
def cutAtDots3 (line : String) : String :=
  match Rx.searchL
    (fun l =>
      match l with
      | '.' :: '.' :: '.' :: _ => some ((), ([] : List Char))
      | _ => none)
    line.data with
  | some (pre, _, _) => strip ⟨pre⟩
  | none => strip line

/-- The clear-credit keyword test (lines 796-800 and copies). -/
def isClearCredit (trans_so_far : String) : Bool :=
  containsS trans_so_far "monthly pay" || containsS trans_so_far "salary" ||
  containsS trans_so_far "direct credit" || containsS trans_so_far "credit interest" ||
  containsS trans_so_far "transfer from" || containsS trans_so_far "transfer in" ||
  containsS trans_so_far "deposit" || containsS trans_so_far "refund" ||
  containsS trans_so_far "from a/c" || containsS trans_so_far "from a/c "

/-- The likely-debit keyword test (lines 961-965 and 1087-1091). -/
def isLikelyDebit (trans_lower : String) : Bool :=
  containsS trans_lower "loan repayment" || containsS trans_lower "repayment" ||
  containsS trans_lower "transfer to" || containsS trans_lower "debit" ||
  containsS trans_lower "payment" || containsS trans_lower "eftpos" ||
  containsS trans_lower "purchase" || containsS trans_lower "withdrawal" ||
  containsS trans_lower "fee" || containsS trans_lower "charge" ||
  containsS trans_lower "tv payment" || containsS trans_lower "shortfall" ||
  containsS trans_lower "linked acc trns" || containsS trans_lower "online"

/-- The likely-credit keyword test of the fallback branch (lines 1092-1095). -/
def isLikelyCredit (trans_lower : String) : Bool :=
  (containsS trans_lower "direct credit" || containsS trans_lower "credit interest" ||
   containsS trans_lower "salary" || containsS trans_lower "monthly pay" ||
   containsS trans_lower "transfer from" || containsS trans_lower "transfer in" ||
   containsS trans_lower "deposit" || containsS trans_lower "refund") &&
  !(containsS trans_lower "payment" || containsS trans_lower "repayment")

/-- The transaction-start keywords (lines 738-739). -/
def startsWithKeyword (line_lower : String) : Bool :=
  startsWithS line_lower "online" || startsWithS line_lower "eftpos" ||
  startsWithS line_lower "po" || startsWithS line_lower "lc" ||
  startsWithS line_lower "v6606" || startsWithS line_lower "refund" ||
  startsWithS line_lower "monthly pay" || startsWithS line_lower "loan repayment" ||
  startsWithS line_lower "direct credit" || startsWithS line_lower "direct debit" ||
  startsWithS line_lower "hcf"

/-- `^([A-Z]{1,3}\d{3,10})\s+` or `^([A-Z]\d{8,})\s+`, IGNORECASE: with the
greedy runs, a code matches exactly when the letter run has length 1-3, the
digit run length lies in 3-10 (or is at least 8 after a single letter), and
a whitespace character follows. -/
def transactionCode (line : String) : Bool :=
  let l := line.data
  let (letters, r1) := Rx.runOf isAlphaC l
  let (digits, r2) := Rx.runOf isDigitC r1
  let wsAfter := match r2 with | c :: _ => isWs c | [] => false
  (1 ≤ letters.length && letters.length ≤ 3 &&
   3 ≤ digits.length && digits.length ≤ 10 && wsAfter) ||
  (letters.length = 1 && 8 ≤ digits.length && wsAfter)

/-- `line_lower.startswith('ref:') or line_lower.startswith('inv ')`. -/
def isContinuation (line_lower : String) : Bool :=
  startsWithS line_lower "ref:" || startsWithS line_lower "inv "

/-- `^\.+$`: the whole line is a non-empty dot run. -/
def allDotsLine (line : String) : Bool :=
  line.data ≠ [] && line.data.all (fun c => c = '.')

end NabOffset

namespace NabOffset

open StrUtil

/-- Match `\s+W1\s+W2...` for literal words, case-insensitively. -/
def matchWsWords : List String → List Char → Option (List Char)
  | [], l => some l
  | w :: ws, l =>
    match Rx.matchWsPlus l with
    | some (_, r1) =>
      match Rx.matchLitCI w.data r1 with
      | some r2 => matchWsWords ws r2
      | none => none
    | none => none

/-- Leftmost occurrence of `\s+W1\s+...`; gives the text before and the
remainder after the matched words. -/
def findWsWords (words : List String) (l : List Char) :
    Option (List Char × List Char) :=
  (Rx.searchL (fun l0 => (matchWsWords words l0).map (fun r => (r, r))) l).map
    (fun x => (x.1, x.2.1))

/-- Leftmost `From\s+A/C\s+`, returning the whole suffix from the match
(the lazy `.*?$` tail extends the group to the end of the string). -/
def findFromAC (l : List Char) : Option (List Char) :=
  (Rx.searchL
    (fun l0 =>
      match Rx.matchLitCI "from".data l0 with
      | some r1 =>
        match Rx.matchWsPlus r1 with
        | some (_, r2) =>
          match Rx.matchLitCI "a/c".data r2 with
          | some r3 =>
            match Rx.matchWsPlus r3 with
            | some _ => some (l0, ([] : List Char))
            | none => none
          | none => none
        | none => none
      | none => none)
    l).map (fun x => x.2.1)

/-- Leftmost `Ref:\s+`, returning the suffix from the match (the group of
`Ref:\s+.*?$` runs to the end). -/
def findRefColon (l : List Char) : Option (List Char) :=
  (Rx.searchL
    (fun l0 =>
      match Rx.matchLitCI "ref:".data l0 with
      | some r1 =>
        match Rx.matchWsPlus r1 with
        | some _ => some (l0, ([] : List Char))
        | none => none
      | none => none)
    l).map (fun x => x.2.1)

/-- Python `re.sub(r'\([^)]*\)', '', s)`: drop every parenthesised group up
to the first closing parenthesis; an unclosed `(` stays. -/
def removeParensAux : Nat → List Char → List Char
  | 0, l => l
  | fuel + 1, l =>
    match l with
    | [] => []
    | c :: t =>
      if c = '(' then
        match t.dropWhile (fun d => d ≠ ')') with
        | ')' :: r2 => removeParensAux fuel r2
        | _ => c :: removeParensAux fuel t
      else c :: removeParensAux fuel t

/-- The substitution, with ample fuel (every step shortens the list). -/
def removeParens (l : List Char) : List Char :=
  removeParensAux (l.length + 1) l

/-- Python `re.sub(r'\([^a-zA-Z0-9\s)]*\)', '', s)`: drop parenthesised runs
of garbage characters. -/
def removeParensGarbageAux : Nat → List Char → List Char
  | 0, l => l
  | fuel + 1, l =>
    match l with
    | [] => []
    | c :: t =>
      if c = '(' then
        match t.dropWhile
            (fun d => !(isAlphaC d || isDigitC d || isWs d || d = ')')) with
        | ')' :: r2 => removeParensGarbageAux fuel r2
        | _ => c :: removeParensGarbageAux fuel t
      else c :: removeParensGarbageAux fuel t

/-- The substitution, with ample fuel. -/
def removeParensGarbage (l : List Char) : List Char :=
  removeParensGarbageAux (l.length + 1) l

def offsetLoanWords : List String := ["nab", "offset", "home", "loan"]

/-- The global fallback substitution
`re.sub(r'\s+NAB\s+Offset\s+Home\s+Loan.*?(?=\s+From\s+A/C)', '', name)`. -/
def offsetLoanFallback : Nat → List Char → List Char
  | 0, l => l
  | fuel + 1, l =>
    match findWsWords offsetLoanWords l with
    | none => l
    | some (pre, afterLoan) =>
      match Rx.searchL
        (fun l1 => (matchWsWords ["from", "a/c"] l1).map
          (fun _ => (l1, ([] : List Char))))
        afterLoan with
      | none => l
      | some (_, qSuffix, _) => pre ++ offsetLoanFallback fuel qSuffix

/-- The NAB-Offset-Home-Loan cleanup branch (lines 286-296). -/
def cleanOffsetLoan (name : List Char) : List Char :=
  if containsL (lowerL name) "nab offset home loan".data &&
      containsL (lowerL name) "from a/c".data then
    match findWsWords offsetLoanWords name with
    | some (pre, afterLoan) =>
      match findFromAC afterLoan with
      | some grp2 => stripL pre ++ ' ' :: stripL grp2
      | none => offsetLoanFallback name.length name
    | none => offsetLoanFallback name.length name
  else name

/-- The NAB-Classic-Banking cleanup branch (lines 298-316). -/
def cleanClassicBanking (name : List Char) : List Char :=
  if containsL (lowerL name) "nab classic banking".data &&
      containsL (lowerL name) "ref:".data then
    match findWsWords ["nab", "classic", "banking"] name with
    | some (pre, afterPart) =>
      let before := stripL pre
      let afterPart := removeParens afterPart
      match findRefColon afterPart with
      | some grp0 => before ++ ' ' :: stripL grp0
      | none => before
    | none => name
  else name

/-- First index of a substring. -/
def indexOfSubAux (needle : List Char) : List Char → Nat → Option Nat
  | h, i =>
    if needle.isPrefixOf h then some i
    else
      match h with
      | [] => none
      | _ :: t => indexOfSubAux needle t (i + 1)

/-- The pre-`Ref:` parenthesis cleanup branch (lines 318-333). -/
def cleanRefParens (name : List Char) : List Char :=
  if containsL (lowerL name) "ref:".data then
    match indexOfSubAux "ref:".data (lowerL name) 0 with
    | some p =>
      if p > 0 then
        removeParensGarbage (removeParens (name.take p)) ++ name.drop p
      else name
    | none => name
  else name

/-- The long-interest-message branch (lines 275-281): both phrase tests are
case-sensitive, the final anchor search is not. -/
def cleanInterestBranch? (name : List Char) : Option (List Char) :=
  if containsL name "By Depositing Your Savings In A Linked".data &&
      containsL name "Interest Charged".data then
    if "interest charged".data.isSuffixOf (rstripL (lowerL name)) then
      some "Interest Charged".data
    else none
  else none

/-- Remove a trailing dot run: `re.sub(r'\.+$', '', s)`. -/
def dropTrailingDots (l : List Char) : List Char :=
  (l.reverse.dropWhile (fun c => c = '.')).reverse

/-- Remove a trailing `\.{3,}\s*[\d,]+\.?\d*\s*$` amount. -/
def subDotsAmountTail (l : List Char) : List Char :=
  match Rx.searchL
    (fun l0 =>
      let (dots, r1) := Rx.runOf (fun c => c = '.') l0
      if dots.length < 3 then none
      else
        let (_, r2) := Rx.runOf isWs r1
        match Rx.matchNumCore r2 with
        | some (_, rest) =>
          if rest.all isWs then some ((), ([] : List Char)) else none
        | none => none)
    l with
  | some (pre, _, _) => pre
  | none => l

/-- Replace every dot run of four or more with one space:
`re.sub(r'\.{4,}', ' ', s)`. -/
def dots4Aux : Nat → List Char → List Char
  | n, [] => if n ≥ 4 then [' '] else List.replicate n '.'
  | n, c :: t =>
    if c = '.' then dots4Aux (n + 1) t
    else
      (if n ≥ 4 then [' '] else List.replicate n '.') ++ c :: dots4Aux 0 t

def subDots4 (l : List Char) : List Char := dots4Aux 0 l

/-- Remove a trailing `\s+[\d,]+\.\d{2}\s*$` amount. -/
def subTrailAmount (l : List Char) : List Char :=
  match Rx.searchL
    (fun l0 =>
      match Rx.matchWsPlus l0 with
      | some (_, r1) =>
        match Rx.matchAmt2 r1 with
        | some (_, rest) =>
          if rest.all isWs then some ((), ([] : List Char)) else none
        | none => none
      | none => none)
    l with
  | some (pre, _, _) => pre
  | none => l

/-- Matcher for `\s+[\d,]+\.[\d,]+\s+(CR|DR)` (IGNORECASE); `endAnchored`
selects the `$`-terminated variant, otherwise a further `\s+` is required. -/
def matchBalTail (endAnchored : Bool) (l0 : List Char) :
    Option (Unit × List Char) :=
  match Rx.matchWsPlus l0 with
  | some (_, r1) =>
    let (cd1, r2) := Rx.runOf isDigComma r1
    if cd1.isEmpty then none
    else
      match r2 with
      | '.' :: r3 =>
        let (cd2, r4) := Rx.runOf isDigComma r3
        if cd2.isEmpty then none
        else
          match Rx.matchWsPlus r4 with
          | some (_, r5) =>
            match r5 with
            | a :: b :: r6 =>
              if (a.toLower = 'c' || a.toLower = 'd') && b.toLower = 'r' then
                if endAnchored then
                  if r6 = [] then some ((), r6) else none
                else
                  match Rx.matchWsPlus r6 with
                  | some (_, r7) => some ((), r7)
                  | none => none
              else none
            | _ => none
          | none => none
      | _ => none
  | none => none

/-- Global `re.sub(r'\s+[\d,]+\.[\d,]+\s+(CR|DR)\s+', ' ', s)`. -/
def subBalMid : Nat → List Char → List Char
  | 0, l => l
  | fuel + 1, l =>
    match Rx.searchL (matchBalTail false) l with
    | some (pre, _, rest) => pre ++ ' ' :: subBalMid fuel rest
    | none => l

/-- `re.sub(r'\s+[\d,]+\.[\d,]+\s+(CR|DR)$', '', s)`. -/
def subBalEnd (l : List Char) : List Char :=
  match Rx.searchL (matchBalTail true) l with
  | some (pre, _, _) => pre
  | none => l

/-- The script's `clean_transaction_name`. -/
def clean_transaction_name (name : String) : String :=
  match cleanInterestBranch? name.data with
  | some r => ⟨r⟩
  | none =>
    let name := cleanOffsetLoan name.data
    let name := cleanClassicBanking name
    let name := cleanRefParens name
    let cleaned := dropTrailingDots (stripL name)
    let cleaned := subDotsAmountTail cleaned
    let cleaned := subDots4 cleaned
    let cleaned := subTrailAmount cleaned
    let cleaned := subBalMid cleaned.length cleaned
    let cleaned := subBalEnd cleaned
    let cleaned := Rx.collapseWs cleaned
    ⟨stripL cleaned⟩

end NabOffset

namespace NabOffset

open StrUtil

def hasAlphaLine (line : String) : Bool := line.data.any isAlphaC

/-- Match `^[\$]?\s*([\d,]+\.\d{2})\s*$` and return the first group. -/
def standaloneAmount (line : String) : Option String :=
  let l := match line.data with | '$' :: t => t | t => t
  let l := l.dropWhile isWs
  match Rx.matchAmt2 l with
  | some (num, rest) => if rest.all isWs then some ⟨num⟩ else none
  | none => none

/-- The filler-run column inference (lines 795-801 and copies): runs of
fewer than 100 dots mean the Debits column, unless the accumulated
description contains a clear-credit keyword. -/
def dotsIsDebit (num_dots : Nat) (trans_so_far : String) : Bool :=
  num_dots < 100 && !isClearCredit trans_so_far

/-- State of the third pass that splits a day's collected lines into
transactions (lines 731-985). -/
structure ThirdSt where
  transactions : List (String × Flt × Bool)
  desc : List String
  amount : Option (Flt × Bool)
  lastIncomplete : Option Nat
deriving Repr, DecidableEq

/-- Store a found amount: complete the pending incomplete transaction, or
close the transaction being built, or just hold the amount (lines 803-818
and the twin copies). -/
def saveWithAmount (st : ThirdSt) (amtPair : Flt × Bool) : ThirdSt :=
  if st.desc = [] then
    match st.lastIncomplete with
    | some k =>
      let prevDesc := (st.transactions.getD k ("", Flt.zero, false)).1
      { st with
        transactions := st.transactions.set k (prevDesc, amtPair.1, amtPair.2),
        lastIncomplete := none, amount := none }
    | none => { st with amount := some amtPair }
  else
    let td := clean_transaction_name (strip (joinSp st.desc))
    let ts :=
      if td ≠ "" then st.transactions ++ [(td, amtPair.1, amtPair.2)]
      else st.transactions
    { st with transactions := ts, desc := [], amount := none }

/-- The third pass over a block's collected lines. -/
def thirdPassAux (collected : List String) : Nat → Nat → ThirdSt → ThirdSt
  | 0, _, st => st
  | fuel + 1, line_idx, st =>
  if line_idx < collected.length then
    let line := collected.getD line_idx ""
    let line_lower := strip (lower line)
    if line_lower = "" then thirdPassAux collected fuel (line_idx + 1) st
    else if containsS line_lower "carried forward" ||
        containsS line_lower "brought forward" then
      -- the balance gate `^[\d,]+\.?\d*\s*(CR|DR)?` holds exactly when the
      -- next line starts with a digit or comma (everything else is optional)
      let skipTwo :=
        line_idx + 1 < collected.length &&
        (match (collected.getD (line_idx + 1) "").data with
         | c :: _ => isDigComma c
         | [] => false)
      thirdPassAux collected fuel (line_idx + 1 + (if skipTwo then 1 else 0)) st
    else if line_lower = "cr" || line_lower = "dr" then
      -- both source subcases (after a page marker or not) skip two lines
      thirdPassAux collected fuel (line_idx + 2) st
    else
      match dotsAmountSearch line with
      | some (num_dots, amount_str) =>
        let desc_part := cutAtDots3 line
        let st1 :=
          if desc_part ≠ "" then { st with desc := st.desc ++ [desc_part] }
          else st
        match Core.parse_amount amount_str with
        | some amt =>
          let trans_so_far := lower (joinSp (st1.desc ++ [desc_part]))
          let is_debit := dotsIsDebit num_dots trans_so_far
          thirdPassAux collected fuel (line_idx + 1) (saveWithAmount st1 (amt, is_debit))
        | none => thirdPassAux collected fuel (line_idx + 1) st1
      | none =>
        if startsWithS line "." then
          -- Pattern 2: its inner search is the same regular expression that
          -- just failed above, so the body below never fires; kept faithful.
          match dotsAmountSearchWithWs line with
          | some (num_dots, amount_str) =>
            match Core.parse_amount amount_str with
            | some amt =>
              let trans_so_far := lower (joinSp st.desc)
              let is_debit := dotsIsDebit num_dots trans_so_far
              thirdPassAux collected fuel (line_idx + 1) (saveWithAmount st (amt, is_debit))
            | none => thirdPassAux collected fuel (line_idx + 1) st
          | none => thirdPassAux collected fuel (line_idx + 1) st
        else if hasAlphaLine line then
          let code := transactionCode line
          let kw := startsWithKeyword line_lower
          let cont := isContinuation line_lower
          if st.lastIncomplete.isSome && cont && st.desc = [] then
            let k := st.lastIncomplete.getD 0
            let prevDesc := (st.transactions.getD k ("", Flt.zero, false)).1
            let updated := clean_transaction_name (strip (prevDesc ++ " " ++ line))
            thirdPassAux collected fuel (line_idx + 1)
              { st with
                transactions := st.transactions.set k (updated, Flt.zero, true) }
          else if st.desc ≠ [] && cont && !code then
            thirdPassAux collected fuel (line_idx + 1) { st with desc := st.desc ++ [line] }
          else if st.amount.isSome && st.desc ≠ [] then
            thirdPassAux collected fuel (line_idx + 1)
              { st with desc := [line], amount := none }
          else if code && st.desc ≠ [] then
            let prev_amount : Option (Flt × Bool) :=
              match st.amount with
              | some a => some a
              | none =>
                if line_idx > 0 then
                  match dotsAmountSearch (collected.getD (line_idx - 1) "") with
                  | some (nd, astr) =>
                    match Core.parse_amount astr with
                    | some amt =>
                      let tsf := lower (joinSp st.desc)
                      some (amt, dotsIsDebit nd tsf)
                    | none => none
                  | none => none
                else none
            let prev_desc := clean_transaction_name (strip (joinSp st.desc))
            let st2 :=
              if prev_desc ≠ "" then
                match prev_amount with
                | some pa =>
                  { st with
                    transactions := st.transactions ++ [(prev_desc, pa.1, pa.2)],
                    lastIncomplete := none }
                | none =>
                  { st with
                    transactions := st.transactions ++ [(prev_desc, Flt.zero, true)],
                    lastIncomplete := some st.transactions.length }
              else st
            thirdPassAux collected fuel (line_idx + 1)
              { st2 with desc := [line], amount := none }
          else if kw && st.desc ≠ [] && st.amount.isSome then
            -- unreachable in the source (an earlier branch owns this case)
            let prev_desc := clean_transaction_name (strip (joinSp st.desc))
            let pa := st.amount.getD (Flt.zero, true)
            let st2 :=
              if prev_desc ≠ "" then
                { st with transactions := st.transactions ++ [(prev_desc, pa.1, pa.2)] }
              else st
            thirdPassAux collected fuel (line_idx + 1)
              { st2 with desc := [line], amount := none }
          else
            thirdPassAux collected fuel (line_idx + 1) { st with desc := st.desc ++ [line] }
        else
          match standaloneAmount line with
          | some amount_str =>
            match Core.parse_amount amount_str with
            | some amt =>
              let amtPair :=
                if line_idx > 0 && allDotsLine (collected.getD (line_idx - 1) "") then
                  (amt, false)
                else
                  let tsf := lower (joinSp st.desc)
                  (amt, isLikelyDebit tsf)
              thirdPassAux collected fuel (line_idx + 1) (saveWithAmount st amtPair)
            | none => thirdPassAux collected fuel (line_idx + 1) st
          | none => thirdPassAux collected fuel (line_idx + 1) st
  else st

/-- The third pass, with ample fuel. -/
def thirdPass (collected : List String) (line_idx : Nat) (st : ThirdSt) :
    ThirdSt :=
  thirdPassAux collected (collected.length + 1) line_idx st

/-- An emitted NAB output row. -/
structure NabRow where
  date : String
  transaction : String
  amount : Flt
  balance : Flt
deriving Repr, DecidableEq

/-- First resolution pass (lines 1000-1014): working backwards from the
day-end balance, record for each transaction the balance-before under the
debit and the credit hypothesis, following the column hint in between. -/
def balancesBefore (dayEnd : Flt) (trans : List (String × Flt × Bool)) :
    List (Flt × Flt) :=
  (trans.reverse.foldl
    (fun (acc : List (Flt × Flt) × Flt) tr =>
      let bd := Flt.add acc.2 tr.2.1
      let bc := Flt.sub acc.2 tr.2.1
      ((bd, bc) :: acc.1, if tr.2.2 then bd else bc))
    ([], dayEnd)).1

/-- Second resolution pass (lines 1017-1034): walk forward, choosing debit
or credit by whichever balance-before is closer to the live balance, and
advance the balance by the signed amount once per transaction. -/
def forwardResolve (cur : Flt) :
    List ((String × Flt × Bool) × (Flt × Flt)) → List (String × Flt × Flt)
  | [] => []
  | (tr, bb) :: rest =>
    let dd := Flt.abs (Flt.sub bb.1 cur)
    let cd := Flt.abs (Flt.sub bb.2 cur)
    if Flt.blt dd cd || (Flt.beq dd cd && tr.2.2) then
      (tr.1, Flt.neg tr.2.1, Flt.sub cur tr.2.1) ::
        forwardResolve (Flt.sub cur tr.2.1) rest
    else
      (tr.1, tr.2.1, Flt.add cur tr.2.1) ::
        forwardResolve (Flt.add cur tr.2.1) rest

/-- The emission filter applied to resolved transactions (lines 1037-1052). -/
def emitFilter (formatted_date : String)
    (processed : List (String × Flt × Flt)) : List NabRow :=
  processed.filterMap (fun tr =>
    let tl := lower tr.1
    if tr.1 = "" || containsS tl "opening balance" ||
        containsS tl "closing balance" then none
    else if containsS tl "the following information" ||
        containsS tl "if a charge is incorrect" ||
        containsS tl "if you have any queries" ||
        containsS tl "brought forward" ||
        containsS tl "carried forward" then none
    else some ⟨formatted_date, tr.1, tr.2.1, tr.2.2⟩)

/-- Day resolution (lines 989-1059): with transactions and a day-end
balance, run the two passes, emit the filtered rows, and reset the running
balance to the day-end balance; otherwise nothing changes here. -/
def resolveDay (formatted_date : String)
    (transactions : List (String × Flt × Bool)) (day_end_balance : Option Flt)
    (running_balance : Option Flt) : List NabRow × Option Flt :=
  match day_end_balance with
  | some dayEnd =>
    if transactions ≠ [] then
      let prev := running_balance.getD Flt.zero
      let bb := balancesBefore dayEnd transactions
      let processed := forwardResolve prev (transactions.zip bb)
      (emitFilter formatted_date processed, some dayEnd)
    else ([], running_balance)
  | none => ([], running_balance)

/-- The fallback emission with no day-end balance (lines 1067-1110):
keyword-based sign, running balance advanced per record. -/
def fallbackEmit (formatted_date : String)
    (transactions : List (String × Flt × Bool))
    (running_balance : Option Flt) : List NabRow × Option Flt :=
  transactions.foldl
    (fun (acc : List NabRow × Option Flt) tr =>
      let tl := lower tr.1
      if tr.1 = "" || containsS tl "opening balance" ||
          containsS tl "closing balance" then acc
      else if containsS tl "the following information" ||
          containsS tl "if a charge is incorrect" ||
          containsS tl "if you have any queries" ||
          containsS tl "brought forward" ||
          containsS tl "carried forward" then acc
      else
        let likely_debit := isLikelyDebit tl
        let likely_credit := isLikelyCredit tl
        let amount :=
          if likely_debit && !likely_credit then Flt.neg tr.2.1 else tr.2.1
        match acc.2 with
        | some r =>
          (acc.1 ++ [⟨formatted_date, tr.1, amount, Flt.add r amount⟩],
           some (Flt.add r amount))
        | none =>
          (acc.1 ++ [⟨formatted_date, tr.1, amount, amount⟩], some amount))
    ([], running_balance)

end NabOffset

namespace NabOffset

open StrUtil

/-- Outcome of the inner collection loop over one page (lines 592-705). -/
structure InnerOut where
  j : Nat
  collected : List String
  dayEnd : Option Flt
  boundary : Bool
  cpiToEnd : Bool
deriving Repr, DecidableEq

/-- The different-date stop test of the inner collection loop
(lines 600-614): a standalone date on the line whose day or month differs
from the date being collected. -/
def dateStopTest (next_line : String) (formatted_date : String) : Bool :=
  match (match dateStandalone? next_line.data with
         | some t => some t.chars
         | none => (dateYearStandalone? next_line.data).map
             (fun t => t.chars)) with
  | some dateChars =>
    let dpn := splitWs ⟨dateChars⟩
    let dpc := StrUtil.splitSlash formatted_date
    if dpn.length ≥ 2 && dpc.length = 3 then
      let day_new := (parseNat? (dpn.getD 0 "").data).getD 0
      let month_new := Core.monthLookup (dpn.getD 1 "").data
      let day_cur := (parseNat? (dpc.getD 0 "").data).getD 0
      let month_cur := (parseNat? (dpc.getD 1 "").data).getD 0
      day_new ≠ day_cur || month_new ≠ some month_cur
    else false
  | none => false

/-- The inner collection loop: walk the current page's lines from `j`,
skipping decorations and page markers, stopping at a different date or at
the day-end balance (a CR/DR line followed by an amount line). -/
def collectInnerAux (curLines : List String) (formatted_date : String) :
    Nat → Nat → Nat → List String → Bool → InnerOut
  | 0, _, j, collected, boundary => ⟨j, collected, none, boundary, false⟩
  | fuel + 1, iter, j, collected, boundary =>
  if j < curLines.length then
    if iter + 1 > 500 then ⟨j, collected, none, boundary, false⟩
    else
      let next_line := curLines.getD j ""
      let next_lower := lower next_line
      if dateStopTest next_line formatted_date then
        ⟨j, collected, none, boundary, true⟩
      else if starsLine next_line then
        collectInnerAux curLines formatted_date fuel (iter + 1) (j + 1) collected boundary
      else if collectSkipPhrases next_lower then
        collectInnerAux curLines formatted_date fuel (iter + 1) (j + 1) collected boundary
      else if containsS next_lower "carried forward" then
        ⟨j, collected, none, true, false⟩
      else if containsS next_lower "brought forward" then
        let j1 := j + 1
        let j2 :=
          if j1 < curLines.length then
            let nn := curLines.getD j1 ""
            if strip (lower nn) = "cr" || strip (lower nn) = "dr" then
              if j1 + 1 < curLines.length &&
                  Rx.searchAmt2 (curLines.getD (j1 + 1) "").data then j1 + 2
              else j1 + 1
            else if Rx.searchAmt2 nn.data then j1 + 1
            else j1
          else j1
        collectInnerAux curLines formatted_date fuel (iter + 1) j2 collected true
      else if strip next_lower = "cr" || strip next_lower = "dr" then
        if j + 1 < curLines.length then
          let balance_line := curLines.getD (j + 1) ""
          if containsS (lower balance_line) "carried forward" ||
              containsS (lower balance_line) "brought forward" then
            collectInnerAux curLines formatted_date fuel (iter + 1) (j + 2) collected true
          else if Rx.searchAmt2 balance_line.data then
            -- the source would raise a TypeError on an unparseable
            -- concatenation; the amount gate makes that corner unreachable
            -- for well-formed figures, and we carry `none` instead
            let (b, bd) := Core.parse_balance_with_dr_cr
              (balance_line ++ " " ++ next_line)
            let dayEnd :=
              b.map (fun v => if bd then Flt.neg (Flt.abs v) else Flt.abs v)
            ⟨j + 2, collected ++ [next_line, balance_line], dayEnd, boundary, true⟩
          else
            collectInnerAux curLines formatted_date fuel (iter + 1) (j + 1)
              (collected ++ [next_line]) boundary
        else
          collectInnerAux curLines formatted_date fuel (iter + 1) (j + 1)
            (collected ++ [next_line]) boundary
      else
        collectInnerAux curLines formatted_date fuel (iter + 1) (j + 1)
          (collected ++ [next_line]) boundary
  else ⟨j, collected, none, boundary, false⟩

/-- The inner collection loop, with ample fuel (the cursor advances by at
least one line per step). -/
def collectInner (curLines : List String) (formatted_date : String)
    (iter : Nat) (j : Nat) (collected : List String) (boundary : Bool) :
    InnerOut :=
  collectInnerAux curLines formatted_date (curLines.length + 1) iter j
    collected boundary

/-- The brought-forward/header skip at the top of a continued page
(lines 560-590); returns the resume index and whether the page-boundary
flag is set. -/
def newPageSkipAux (curLines : List String) : Nat → Nat → Nat × Bool
  | 0, _ => (0, false)
  | fuel + 1, k =>
  if k < curLines.length then
    let lk := lower (curLines.getD k "")
    if containsS lk "brought forward" then
      let j := k + 1
      let j2 :=
        if j < curLines.length then
          let nla := curLines.getD j ""
          if strip (lower nla) = "cr" || strip (lower nla) = "dr" then
            if j + 1 < curLines.length &&
                Rx.searchAmt2 (curLines.getD (j + 1) "").data then j + 2
            else j
          else if Rx.searchAmt2 nla.data then j + 1
          else j
        else j
      (j2, true)
    else if containsS lk "date" && containsS lk "particulars" then (k + 1, false)
    else if strip lk = "date" && k + 4 < curLines.length then
      let nl := joinSp ((List.range 4).map
        (fun m => lower (curLines.getD (k + 1 + m) "")))
      if containsS nl "particulars" then (k + 5, false)
      else newPageSkipAux curLines fuel (k + 1)
    else newPageSkipAux curLines fuel (k + 1)
  else (0, false)

/-- The continued-page skip, with ample fuel. -/
def newPageSkip (curLines : List String) (k : Nat) : Nat × Bool :=
  newPageSkipAux curLines (curLines.length + 1) k

/-- Outcome of the whole cross-page collection (lines 527-725). -/
structure CollectOut where
  collected : List String
  dayEnd : Option Flt
  cpi : Nat
  j : Nat
deriving Repr, DecidableEq

/-- The outer collection loop: run the inner loop on the current page, then
move to the next page on exhaustion or a page boundary; the iteration guard
of the source is modelled by the explicit counter. -/
def collectOuterAux (doc : List (List String)) (page_idx : Nat)
    (formatted_date : String) :
    Nat → Nat → Nat → Nat → Bool → List String → CollectOut
  | 0, _, cpi, j, _, collected => ⟨collected, none, cpi, j⟩
  | fuel + 1, iterCount, cpi, j, boundary, collected =>
  if cpi < doc.length then
    if iterCount + 1 > 1000 then ⟨collected, none, cpi, j⟩
    else
      let curLines := footerFilter (doc.getD cpi [])
      let jb :=
        if cpi > page_idx then newPageSkip curLines 0 else (j, boundary)
      let io := collectInner curLines formatted_date 0 jb.1 collected jb.2
      if io.dayEnd.isSome then ⟨io.collected, io.dayEnd, doc.length, io.j⟩
      else if io.cpiToEnd then
        if io.j ≥ curLines.length || io.boundary then
          ⟨io.collected, none, doc.length + 1, io.j⟩
        else ⟨io.collected, none, doc.length, io.j⟩
      else if io.j ≥ curLines.length || io.boundary then
        if cpi + 1 ≥ doc.length then ⟨io.collected, none, cpi + 1, io.j⟩
        else
          collectOuterAux doc page_idx formatted_date fuel (iterCount + 1)
            (cpi + 1) io.j false io.collected
      else ⟨io.collected, none, cpi, io.j⟩
  else ⟨collected, none, cpi, j⟩

/-- The outer collection loop, with ample fuel (each step moves to the next
page). -/
def collectOuter (doc : List (List String)) (page_idx : Nat)
    (formatted_date : String) (iterCount : Nat) (cpi : Nat) (j : Nat)
    (boundary : Bool) (collected : List String) : CollectOut :=
  collectOuterAux doc page_idx formatted_date (doc.length + 1) iterCount cpi
    j boundary collected

/-- Cursor and output state of the NAB scan. -/
structure NabSt where
  rows : List NabRow
  current_year : Int
  last_month : Option Nat
  running_balance : Option Flt
  processed_dates : List String
deriving Repr, DecidableEq

/-- One iteration of the per-page line loop (lines 411-1117): header
detection, decoration skips, then the date gate with its duplicate check,
the cross-page collection, the third pass, and the day resolution; returns
the next line index, the header flags, and the new state. -/
def scanBody (doc : List (List String)) (page_idx : Nat) (lines : List String)
    (i : Nat) (header_found table_started : Bool) (st : NabSt) :
    Nat × Bool × Bool × NabSt :=
  let line := lines.getD i ""
  let line_lower := lower line
  if !header_found && containsS line_lower "date" &&
      containsS line_lower "particulars" then
    (i + 1, true, true, st)
  else if !header_found && strip line_lower = "date" && i + 4 < lines.length &&
      (let nl := joinSp ((List.range 4).map
        (fun m => lower (lines.getD (i + 1 + m) "")))
       containsS nl "particulars" &&
       (containsS nl "debits" || containsS nl "credits") &&
       containsS nl "balance") then
    (i + 5, true, true, st)
  else if !table_started then (i + 1, header_found, table_started, st)
  else if starsLine line then (i + 1, header_found, table_started, st)
  else if scanSkipTerms line_lower then (i + 1, header_found, table_started, st)
  else if strip line_lower = "brought forward" then
    (i + 1, header_found, table_started, st)
  else
    let res := resolveDateLine line st.current_year st.last_month
    match res.formatted with
    | some fd =>
      if fd ∈ st.processed_dates then
        (i + 1, header_found, table_started, { st with current_year := res.year })
      else
        let st1 := { st with current_year := res.year,
                             processed_dates := st.processed_dates ++ [fd] }
        let parts := StrUtil.splitSlash fd
        let cy : Int :=
          if parts.length = 3 then
            (parseInt? (parts.getD 2 "").data).getD st1.current_year
          else st1.current_year
        let lm : Option Nat :=
          if parts.length = 3 then
            match parseNat? (stripL (parts.getD 1 "").data) with
            | some m => some m
            | none => st1.last_month
          else st1.last_month
        let st2 := { st1 with current_year := cy, last_month := lm }
        let co := collectOuter doc page_idx fd 0 page_idx (i + 1) false []
        let tp := thirdPass co.collected 0 ⟨[], [], none, none⟩
        let nr := resolveDay fd tp.transactions co.dayEnd st2.running_balance
        let fr :=
          if co.cpi > page_idx then (([] : List NabRow), nr.2)
          else if tp.transactions ≠ [] then
            fallbackEmit fd tp.transactions nr.2
          else ([], nr.2)
        (co.j, header_found, table_started,
          { st2 with rows := st2.rows ++ nr.1 ++ fr.1,
                     running_balance := fr.2 })
    | none =>
      (i + 1, header_found, table_started, { st with current_year := res.year })

/-- The fuelled per-page while loop. -/
def scanPage (doc : List (List String)) (page_idx : Nat)
    (lines : List String) : Nat → Nat → Bool → Bool → NabSt → NabSt
  | 0, _, _, _, st => st
  | fuel + 1, i, hf, ts, st =>
    if i < lines.length then
      let r := scanBody doc page_idx lines i hf ts st
      scanPage doc page_idx lines fuel r.1 r.2.1 r.2.2.1 r.2.2.2
    else st

def totalLines (doc : List (List String)) : Nat := (doc.map List.length).sum

/-- The final scan state over a whole document: opening balance from the
first page, then the page loop. -/
def scanDocument (doc : List (List String)) (year : Int) : NabSt :=
  let rb0 := openingBalance (doc.getD 0 []) 0
  let st0 : NabSt := ⟨[], year, none, rb0, []⟩
  doc.enum.foldl
    (fun st pg =>
      let lines := footerFilter pg.2
      scanPage doc pg.1 lines ((totalLines doc + 2) * (lines.length + 2))
        0 false false st)
    st0

/-- The NAB `parse_transactions` over the extracted page lines. -/
def parse_transactions (doc : List (List String)) (year : Int) : List NabRow :=
  if doc.isEmpty then []
  else (scanDocument doc year).rows

/-- The NAB `write_tsv` (every emitted row carries both figures). -/
def write_tsv (rows : List NabRow) (account_number : String) : String :=
  "Date\tAccount Number\tTransaction\tAmount\tBalance\n" ++
  String.join (rows.map (fun r =>
    r.date ++ "\t" ++ account_number ++ "\t" ++ r.transaction ++ "\t" ++
    Core.qFormat2 r.amount ++ "\t" ++ Core.qFormat2 r.balance ++ "\n"))

end NabOffset

/-! Specification-level predicates and concrete scenario documents used by
the claim theorems. -/

namespace NabOffset

open StrUtil

/-- The running-balance chain: every record's stored balance equals the
previous balance plus the record's signed amount. -/
def balanceChain : ℚ → List (String × Flt × Flt) → Prop
  | _, [] => True
  | prev, r :: rest =>
    r.2.2.toQ = prev + r.2.1.toQ ∧ balanceChain r.2.2.toQ rest

/-- A line free of the page-boundary markers. -/
def markerFree (l : String) : Bool :=
  !containsS (lower l) "carried forward" && !containsS (lower l) "brought forward"

/-- A two-page NAB statement in which a transaction block runs over a
"Carried forward" / "Brought forward" boundary carrying the figure 300.00,
with the day closed by a 900.00 CR balance. -/
def nabCarriedDoc : List (List String) :=
  [["Date Particulars Debits Credits Balance",
    "17 May", "Online Transfer", "....................... 100.00",
    "Carried forward"],
   ["Brought forward", "300.00", "cr", "900.00"]]

end NabOffset

namespace CbaAccount

/-- A CBA Everyday Account document with a valid first page (statement-type
marker, account number and period) but no transaction-table header. -/
def cbaHeaderlessDoc : List (List String) :=
  [["Smart Access", "Account Number: 06 2799 12930092",
    "Statement period 24 Aug 2020 - 31 Dec 2020",
    "15 Jan", "AFTERPAY", "104.99", "(", "11,884.29 CR"]]

end CbaAccount

/-! Theorems on the embedded scripts, one per claim. -/

theorem isPrefixOfAppendSelf (l r : List Char) : l.isPrefixOf (l ++ r) = true := by
  induction l with
  | nil => simp [List.isPrefixOf]
  | cons c t ih => simp [List.isPrefixOf, ih]

theorem startsWithAppend (h rest : String) :
    StrUtil.startsWithS (h ++ rest) h = true := by
  simp only [StrUtil.startsWithS, String.data_append]
  exact isPrefixOfAppendSelf h.data rest.data

/-- C9: the claim says every converter's TSV begins with the exact header
`Date/Account Number/Transaction/Amount/Balance`; the Mastercard converter
writes `Card Number` instead, and all converters emit their header as the
first line even when no rows follow. -/
theorem c9_counterexample :
    CbaMastercard.write_tsv [] "" =
      "Date\tCard Number\tTransaction\tAmount\tBalance\n" ∧
    StrUtil.startsWithS (CbaMastercard.write_tsv [] "")
      "Date\tAccount Number\tTransaction\tAmount\tBalance" = false := by
  constructor
  · rfl
  · decide

/-- C9 (amended): the account converters' output always starts with the
`Account Number` header line, the Mastercard converter's with the
`Card Number` header line, and the zero-row outputs are exactly the header. -/
theorem c9_header_row :
    (∀ (rows : List CbaAccount.Row) (acct : String),
      StrUtil.startsWithS (CbaAccount.write_tsv rows acct)
        "Date\tAccount Number\tTransaction\tAmount\tBalance\n" = true) ∧
    (∀ (rows : List NabOffset.NabRow) (acct : String),
      StrUtil.startsWithS (NabOffset.write_tsv rows acct)
        "Date\tAccount Number\tTransaction\tAmount\tBalance\n" = true) ∧
    (∀ (rows : List CbaMastercard.McRow) (card : String),
      StrUtil.startsWithS (CbaMastercard.write_tsv rows card)
        "Date\tCard Number\tTransaction\tAmount\tBalance\n" = true) ∧
    CbaAccount.write_tsv [] "" =
      "Date\tAccount Number\tTransaction\tAmount\tBalance\n" ∧
    NabOffset.write_tsv [] "" =
      "Date\tAccount Number\tTransaction\tAmount\tBalance\n" := by
  refine ⟨?_, ?_, ?_, rfl, rfl⟩
  · intro rows acct
    exact startsWithAppend _ _
  · intro rows acct
    exact startsWithAppend _ _
  · intro rows card
    exact startsWithAppend _ _


/-! Algebraic facts about the exact decimal type. -/

theorem tenPow_eq (n : Nat) : tenPow n = (10 : Int) ^ n := by
  induction n with
  | zero => rfl
  | succ k ih => rw [tenPow, ih, pow_succ]; ring

theorem tenPow_cast (n : Nat) : ((tenPow n : Int) : ℚ) = (10 : ℚ) ^ n := by
  rw [tenPow_eq]; push_cast; ring

theorem toQ_scale (n : Int) (d e : Nat) (h : d ≤ e) :
    ((n * tenPow (e - d) : Int) : ℚ) / (10 : ℚ) ^ e = (n : ℚ) / (10 : ℚ) ^ d := by
  push_cast [tenPow_cast]
  rw [div_eq_div_iff (by positivity) (by positivity), mul_assoc, ← pow_add]
  have he : e - d + d = e := by omega
  rw [he]

theorem toQ_alignL (a b : Flt) :
    ((Flt.alignL a b : Int) : ℚ) / (10 : ℚ) ^ (max a.exp b.exp) = a.toQ :=
  toQ_scale a.num a.exp (max a.exp b.exp) (le_max_left _ _)

theorem toQ_alignR (a b : Flt) :
    ((Flt.alignR a b : Int) : ℚ) / (10 : ℚ) ^ (max a.exp b.exp) = b.toQ :=
  toQ_scale b.num b.exp (max a.exp b.exp) (le_max_right _ _)

theorem toQ_add (a b : Flt) : (Flt.add a b).toQ = a.toQ + b.toQ := by
  show ((Flt.alignL a b + Flt.alignR a b : Int) : ℚ) / (10 : ℚ) ^ (max a.exp b.exp) = _
  rw [Int.cast_add, add_div, toQ_alignL, toQ_alignR]

theorem toQ_sub (a b : Flt) : (Flt.sub a b).toQ = a.toQ - b.toQ := by
  show ((Flt.alignL a b - Flt.alignR a b : Int) : ℚ) / (10 : ℚ) ^ (max a.exp b.exp) = _
  rw [Int.cast_sub, sub_div, toQ_alignL, toQ_alignR]

theorem toQ_neg (a : Flt) : (Flt.neg a).toQ = -a.toQ := by
  show ((-a.num : Int) : ℚ) / (10 : ℚ) ^ a.exp = _
  rw [Int.cast_neg, neg_div]
  rfl

theorem toQ_abs (a : Flt) : (Flt.abs a).toQ = |a.toQ| := by
  show ((|a.num| : Int) : ℚ) / (10 : ℚ) ^ a.exp = _
  rw [Int.cast_abs, Flt.toQ, abs_div, abs_of_pos (by positivity : (0:ℚ) < (10:ℚ) ^ a.exp)]

theorem blt_iff (a b : Flt) : Flt.blt a b = true ↔ a.toQ < b.toQ := by
  rw [Flt.blt, decide_eq_true_iff, ← toQ_alignL a b, ← toQ_alignR a b,
    div_lt_div_right (by positivity : (0:ℚ) < (10:ℚ) ^ (max a.exp b.exp)),
    Int.cast_lt]

theorem ble_iff (a b : Flt) : Flt.ble a b = true ↔ a.toQ ≤ b.toQ := by
  rw [Flt.ble, decide_eq_true_iff, ← toQ_alignL a b, ← toQ_alignR a b,
    div_le_div_right (by positivity : (0:ℚ) < (10:ℚ) ^ (max a.exp b.exp)),
    Int.cast_le]

theorem beq_iff (a b : Flt) : Flt.beq a b = true ↔ a.toQ = b.toQ := by
  rw [Flt.beq, beq_iff_eq, ← toQ_alignL a b, ← toQ_alignR a b,
    div_left_inj' (by positivity : ((10:ℚ) ^ (max a.exp b.exp)) ≠ 0), Int.cast_inj]

theorem toQ_zero : Flt.zero.toQ = 0 := by
  show ((0 : Int) : ℚ) / (10 : ℚ) ^ 0 = 0
  norm_num

/-- C1: for every emitted record with a known balance figure, the stored
running balance after the record equals the running balance before it plus
the record's signed amount (debits negative, credits positive), exactly (so
in particular to within 0.01), and the running balance is updated exactly
once per emitted record: the NAB forward-resolution pass emits a chain in
which every record's balance is the previous balance plus its signed
amount, the Mastercard balance update adds exactly the signed amount, and
every Mastercard record carries the once-updated balance that becomes the
new running balance. -/
theorem c1_running_balance :
    (∀ (cur : Flt) (l : List ((String × Flt × Bool) × (Flt × Flt))),
      NabOffset.balanceChain cur.toQ (NabOffset.forwardResolve cur l)) ∧
    (∀ (rb amt : Flt) (c : Bool),
      (CbaMastercard.updateBalance rb amt c).toQ =
        rb.toQ + (CbaMastercard.signedAmount amt c).toQ) ∧
    (∀ ds tp astr c cy lm rb row cy2 lm2 rb2,
      CbaMastercard.finalizeTransaction ds tp astr c cy lm rb =
        (some row, cy2, lm2, rb2) →
      row.balance = rb2 ∧ row.is_credit = c ∧
      rb2 = CbaMastercard.updateBalance rb row.amount c) := by
  refine ⟨?_, ?_, ?_⟩
  · intro cur l
    induction l generalizing cur with
    | nil => trivial
    | cons hd rest ih =>
      obtain ⟨tr, bb⟩ := hd
      rw [NabOffset.forwardResolve]
      split
      · exact ⟨by rw [toQ_sub, toQ_neg]; ring, ih _⟩
      · exact ⟨by rw [toQ_add], ih _⟩
  · intro rb amt c
    cases c
    · rw [CbaMastercard.updateBalance, CbaMastercard.signedAmount]
      simp only [Bool.false_eq_true, if_false, toQ_sub, toQ_neg]
      ring
    · rw [CbaMastercard.updateBalance, CbaMastercard.signedAmount]
      simp only [if_true, toQ_add]
  · intro ds tp astr c cy lm rb row cy2 lm2 rb2 h
    rcases hpa : (CbaMastercard.parse_amount astr).1 with _ | amount
    · rw [CbaMastercard.finalizeTransaction, hpa] at h
      simp at h
    · rw [CbaMastercard.finalizeTransaction, hpa] at h
      simp only [Prod.mk.injEq, Option.some.injEq] at h
      obtain ⟨hrow, _, _, hrb⟩ := h
      subst hrow hrb
      exact ⟨rfl, rfl, rfl⟩

/-- C1 witness: the invariant at concrete inputs, including a concrete
Mastercard finalisation. -/
theorem c1_running_balance_witness :
    NabOffset.balanceChain (Flt.toQ ⟨0, 0⟩)
      (NabOffset.forwardResolve ⟨0, 0⟩
        [(("a", ⟨10000, 2⟩, true), (⟨10000, 2⟩, ⟨-10000, 2⟩))]) ∧
    ((CbaMastercard.finalizeTransaction "17 May" ["POS"] "7.60" true 2024
        none ⟨0, 0⟩ =
      (some ⟨some "17/05/2024", "POS", ⟨760, 2⟩, true, ⟨760, 2⟩⟩, 2024,
        some 5, ⟨760, 2⟩)) ∧
     ((⟨some "17/05/2024", "POS", ⟨760, 2⟩, true,
          ⟨760, 2⟩⟩ : CbaMastercard.McRow).balance = ⟨760, 2⟩ ∧
      (⟨some "17/05/2024", "POS", ⟨760, 2⟩, true,
          ⟨760, 2⟩⟩ : CbaMastercard.McRow).is_credit = true ∧
      (⟨760, 2⟩ : Flt) =
        CbaMastercard.updateBalance ⟨0, 0⟩
          (⟨some "17/05/2024", "POS", ⟨760, 2⟩, true,
            ⟨760, 2⟩⟩ : CbaMastercard.McRow).amount true)) :=
  ⟨c1_running_balance.1 ⟨0, 0⟩ _,
   by decide,
   c1_running_balance.2.2 "17 May" ["POS"] "7.60" true 2024 none ⟨0, 0⟩
     ⟨some "17/05/2024", "POS", ⟨760, 2⟩, true, ⟨760, 2⟩⟩ 2024 (some 5)
     ⟨760, 2⟩ (by decide)⟩

theorem secondPassAux_out (collected : List String) (fuel i : Nat)
    (st : CbaAccount.BlockSt) (h : collected.length ≤ i) :
    CbaAccount.secondPassAux collected fuel i st = st := by
  cases fuel with
  | zero => rfl
  | succ f =>
    rw [CbaAccount.secondPassAux]
    rw [if_neg (by omega)]

/-- C2: the claim says every minus-signed or parenthesised amount is
treated as a debit with a negative signed amount; in the Mastercard parser
a trailing minus instead marks a credit, the parsed amount is returned as
an absolute value, and the TSV writer emits it positive. -/
theorem c2_counterexample :
    CbaMastercard.parse_amount "7.60-" = (some ⟨760, 2⟩, true) ∧
    CbaMastercard.signedAmount ⟨760, 2⟩ true = ⟨760, 2⟩ ∧
    Flt.blt Flt.zero ⟨760, 2⟩ = true ∧
    CbaMastercard.write_tsv
        [⟨some "17/05/2024", "PAYMENT", ⟨760, 2⟩, true, ⟨760, 2⟩⟩] "1234" =
      "Date\tCard Number\tTransaction\tAmount\tBalance\n" ++
      "17/05/2024\t1234\tPAYMENT\t7.60\t7.60\n" := by
  refine ⟨by decide, by decide, by decide, by decide⟩

/-- C2 (amended): in the CBA account parser a positive figure held in the
debit slot is emitted negated (and the leading-minus and parenthesised
forms are what fill that slot), while in the Mastercard parser a trailing
minus marks a credit and the parsed amount is absolute, so the signed
amount of a credit is never negative. -/
theorem c2_sign_conventions :
    (∀ fd (st : CbaAccount.BlockSt) d row,
      st.debit = some d → Flt.blt Flt.zero d = true →
      CbaAccount.finalizeBlock fd st = some row →
      row.amount = some (Flt.neg d) ∧ (Flt.neg d).toQ < 0) ∧
    (∀ (line g : String) (st : CbaAccount.BlockSt),
      CbaAccount.isNoiseLine (StrUtil.strip (StrUtil.lower line)) = false →
      CbaAccount.negMatch line = some g →
      st.debit = none →
      CbaAccount.secondPass [line] 0 st =
        { st with debit := Core.parse_amount g }) ∧
    (∀ (line g : String) (st : CbaAccount.BlockSt),
      CbaAccount.isNoiseLine (StrUtil.strip (StrUtil.lower line)) = false →
      CbaAccount.negMatch line = none →
      CbaAccount.standaloneNum line = none →
      CbaAccount.parenFull line = true →
      CbaAccount.parenInner line = some g →
      st.debit = none →
      CbaAccount.secondPass [line] 0 st =
        { st with debit := Core.parse_amount g }) ∧
    (∀ (s : String) (amt : Flt) (c : Bool),
      CbaMastercard.parse_amount s = (some amt, c) →
      c = StrUtil.endsWithS
            (StrUtil.strip (StrUtil.dropChar ',' (StrUtil.dropChar '$' s))) "-" ∧
      0 ≤ (CbaMastercard.signedAmount amt true).toQ) := by
  refine ⟨?_, ?_, ?_, ?_⟩
  · intro fd st d row hd hpos hrow
    rw [CbaAccount.finalizeBlock] at hrow
    split at hrow
    · exact absurd hrow (by simp)
    · simp only [hd, hpos, if_true] at hrow
      rw [if_pos (by simp)] at hrow
      simp only [Option.some.injEq] at hrow
      subst hrow
      refine ⟨rfl, ?_⟩
      rw [toQ_neg]
      have h := (blt_iff Flt.zero d).mp hpos
      rw [toQ_zero] at h
      linarith
  · intro line g st h1 hg h3
    rw [CbaAccount.secondPass, CbaAccount.secondPassAux]
    rw [if_pos (by simp : (0:Nat) < [line].length)]
    rw [List.getD_cons_zero]
    simp only [h1, Bool.false_eq_true, if_false, hg, h3, if_true]
    exact secondPassAux_out _ _ _ _ (by simp)
  · intro line g st h1 hneg hsn hpf hpi h3
    rw [CbaAccount.secondPass, CbaAccount.secondPassAux]
    rw [if_pos (by simp : (0:Nat) < [line].length)]
    rw [List.getD_cons_zero]
    simp only [h1, Bool.false_eq_true, if_false, hneg, hsn, hpf, hpi, h3,
      if_true]
    exact secondPassAux_out _ _ _ _ (by simp)
  · intro s amt c h
    rw [CbaMastercard.parse_amount] at h
    split at h
    · exact absurd h (by simp)
    · simp only [] at h
      split at h
      · simp only [Prod.mk.injEq, Option.some.injEq] at h
        obtain ⟨rfl, rfl⟩ := h
        refine ⟨rfl, ?_⟩
        rw [CbaMastercard.signedAmount]
        simp only [if_true]
        rw [toQ_abs]
        exact abs_nonneg _
      · exact absurd h (by simp)

/-- C2 witness: the sign conventions at concrete inputs (a leading-minus
CBA line and a trailing-minus Mastercard token). -/
theorem c2_sign_conventions_witness :
    CbaAccount.secondPass ["-104.99"] 0 ⟨[], none, none, none, false⟩ =
      { parts := [], debit := Core.parse_amount "104.99", credit := none,
        balance := none, balance_is_debit := false } ∧
    (true = StrUtil.endsWithS
        (StrUtil.strip (StrUtil.dropChar ',' (StrUtil.dropChar '$' "7.60-")))
        "-" ∧
     0 ≤ (CbaMastercard.signedAmount ⟨760, 2⟩ true).toQ) :=
  ⟨c2_sign_conventions.2.1 "-104.99" "104.99" ⟨[], none, none, none, false⟩
     (by decide) (by decide) rfl,
   c2_sign_conventions.2.2.2 "7.60-" ⟨760, 2⟩ true (by decide)⟩

/-- C3: the claim says a year-bearing `DD MON YYYY` token yields a record
date carrying exactly the token's year for every prior `lastMonth`; in the
CBA account parser the token's `DD MON` part is re-parsed with the rollover
rule on top of the explicit year, so `15 Jan 2023` under `lastMonth = 12`
is formatted `15/01/2024`. -/
theorem c3_counterexample :
    CbaAccount.resolveDateLine "15 Jan 2023" 2020 (some 12) =
      ⟨some "15/01/2024", 2023, none⟩ ∧
    (CbaAccount.resolveDateLine "15 Jan 2023" 2020 (some 12)).formatted ≠
      some ("15/01/" ++ toString (2023 : Int)) := by
  refine ⟨by decide, by decide⟩

/-- C3 (amended): for a year-bearing token the cursor's year is set from
the token in both parsers, but the formatted date differs: the CBA account
parser re-parses the `DD MON` part through the yearless rule, adding one
year whenever the token's month is less than `lastMonth`, while the NAB
parser with a known month assembles the date directly from the token's own
day, month and year. -/
theorem c3_year_token :
    (∀ (line : String) (cy : Int) (lm : Option Nat) (t : Rx.DateTokY),
      CbaAccount.dateAtStartYear? line.data = none →
      CbaAccount.dateYearStandalone? line.data = some t →
      ∀ y, Rx.search4Digits t.chars = some y →
      CbaAccount.resolveDateLine line cy lm =
        ⟨CbaAccount.parse_date_dd_mmm (CbaAccount.yearTokenDateStr t.chars)
          (y : Int) lm, (y : Int), none⟩) ∧
    (∀ (ds : String) (cy : Int) (M : Nat) (t3 : Rx.DateTok)
        (rest : List Char) (m : Nat),
      Rx.matchDayMonWith Rx.matchMon3 (StrUtil.stripL ds.data) =
        some (t3, rest) →
      Rx.closeStandalone rest = true →
      Core.monthLookup t3.mon = some m →
      m < M →
      CbaAccount.parse_date_dd_mmm ds cy (some M) =
        some (Core.formatDate (StrUtil.natOfDigits t3.day) m (cy + 1))) ∧
    (∀ (line : String) (cy : Int) (lm : Option Nat) (t : Rx.DateTokY)
        (y : Nat) (day : Nat) (mon : List Char) (m : Nat),
      NabOffset.dateAtStartYear? line.data = none →
      NabOffset.dateYearStandalone? line.data = some t →
      Rx.search4Digits t.chars = some y →
      Rx.matchLeadingDigits12 (NabOffset.yearTokenDateStr t.chars) = some day →
      Rx.searchLetters3 (NabOffset.yearTokenDateStr t.chars) = some mon →
      Core.monthLookup mon = some m →
      m ≠ 0 →
      NabOffset.resolveDateLine line cy lm =
        ⟨some (Core.formatDate day m (y : Int)), (y : Int), none⟩) := by
  refine ⟨?_, ?_, ?_⟩
  · intro line cy lm t h1 h2 y h3
    rw [CbaAccount.resolveDateLine]
    simp only [h1, h2, h3]
  · intro ds cy M t3 rest m hm hc hl hlt
    rw [CbaAccount.parse_date_dd_mmm]
    simp only [hm, hc, if_true, hl]
    rw [if_pos hlt]
  · intro line cy lm t y day mon m h1 h2 h3 h4 h5 h6 h7
    rw [NabOffset.resolveDateLine]
    simp only [h1, h2, h3, h4, h5, h6, Option.getD_some]
    rw [if_pos h7]

/-- C3 witness: the three year-token behaviours at concrete inputs. -/
theorem c3_year_token_witness :
    CbaAccount.resolveDateLine "15 Jan 2023" 2020 (some 12) =
      ⟨CbaAccount.parse_date_dd_mmm
        (CbaAccount.yearTokenDateStr
          (Rx.DateTokY.chars ⟨['1','5'], [' '], ['J','a','n'], [' '],
            ['2','0','2','3']⟩))
        ((2023 : Nat) : Int) (some 12), ((2023 : Nat) : Int), none⟩ ∧
    CbaAccount.parse_date_dd_mmm "15 Jan" 2020 (some 12) =
      some (Core.formatDate (StrUtil.natOfDigits ['1','5']) 1 (2020 + 1)) ∧
    NabOffset.resolveDateLine "15 Jan 2023" 2020 (some 12) =
      ⟨some (Core.formatDate 15 1 ((2023 : Nat) : Int)),
        ((2023 : Nat) : Int), none⟩ :=
  ⟨c3_year_token.1 "15 Jan 2023" 2020 (some 12)
     ⟨['1','5'], [' '], ['J','a','n'], [' '], ['2','0','2','3']⟩
     (by decide) (by decide) 2023 (by decide),
   c3_year_token.2.1 "15 Jan" 2020 12 ⟨['1','5'], [' '], ['J','a','n']⟩ []
     1 (by decide) (by decide) (by decide) (by decide),
   c3_year_token.2.2 "15 Jan 2023" 2020 (some 12)
     ⟨['1','5'], [' '], ['J','a','n'], [' '], ['2','0','2','3']⟩
     2023 15 ['J','a','n'] 1 (by decide) (by decide) (by decide) (by decide)
     (by decide) (by decide) (by decide)⟩

theorem scanLinesAux_no_header (lines : List String) (fuel : Nat)
    (i : Nat) (st : CbaAccount.ScanSt)
    (h : ∀ j, j < lines.length → CbaAccount.headerCheck lines j = none) :
    CbaAccount.scanLinesAux lines fuel i false false st = st := by
  induction fuel generalizing i with
  | zero => rfl
  | succ f ih =>
    rw [CbaAccount.scanLinesAux]
    by_cases hi : i < lines.length
    · rw [if_pos hi]
      split
      · rename_i k hhd
        rw [if_neg Bool.false_ne_true] at hhd
        rw [h i hi] at hhd
        exact absurd hhd (by simp)
      · split
        · simp only [ite_self]
          exact ih (i + 1)
        · rename_i hns
          exact absurd rfl hns
    · rw [if_neg hi]

theorem scanLines_no_header (lines : List String) (i : Nat)
    (st : CbaAccount.ScanSt)
    (h : ∀ j, j < lines.length → CbaAccount.headerCheck lines j = none) :
    CbaAccount.scanLines lines i false false st = st :=
  scanLinesAux_no_header lines (lines.length + 1) i st h

theorem scanLines_fold_id (l : List (List String)) (st : CbaAccount.ScanSt)
    (h : ∀ page ∈ l, ∀ j, j < page.length →
      CbaAccount.headerCheck page j = none) :
    l.foldl (fun st page => CbaAccount.scanLines page 0 false false st) st =
      st := by
  induction l generalizing st with
  | nil => rfl
  | cons p t ih =>
    rw [List.foldl_cons, scanLines_no_header p 0 st (h p (by simp))]
    exact ih st (fun page hm => h page (by simp [hm]))

/-- C4: the claim says a document with no transaction-table header raises a
fatal document-format error; the CBA account converter instead succeeds on
such a document (here one whose first page carries the statement-type
marker, the account number and the period, but no header) and returns zero
rows, with no error. -/
theorem c4_counterexample :
    CbaAccount.convert CbaAccount.cbaHeaderlessDoc = .ok [] ∧
    (∀ page ∈ CbaAccount.cbaHeaderlessDoc, ∀ j, j < page.length →
      CbaAccount.headerCheck page j = none) := by
  refine ⟨by rfl, by decide⟩

/-- C4 (amended): when no line of any page triggers the header check, the
table never starts and `parse_transactions` returns zero rows — the
document is not rejected, the outcome is silent emptiness. -/
theorem c4_no_header_empty :
    ∀ (doc : List (List String)) (year : Int),
      (∀ page ∈ doc, ∀ j, j < page.length →
        CbaAccount.headerCheck page j = none) →
      CbaAccount.parse_transactions doc year = [] := by
  intro doc year h
  rw [CbaAccount.parse_transactions]
  split
  · rfl
  · cases hfs : CbaAccount.firstStatementPageTx doc with
    | none => rfl
    | some startIdx =>
      have hd : ∀ page ∈ doc.drop startIdx, ∀ j, j < page.length →
          CbaAccount.headerCheck page j = none :=
        fun page hm => h page (List.mem_of_mem_drop hm)
      simp only []
      rw [scanLines_fold_id _ _ hd]

/-- C4 witness: the no-header theorem applied to the concrete headerless
document. -/
theorem c4_no_header_empty_witness :
    CbaAccount.parse_transactions CbaAccount.cbaHeaderlessDoc 2020 = [] :=
  c4_no_header_empty CbaAccount.cbaHeaderlessDoc 2020 (by decide)

theorem collectInnerAux_markerFree (curLines : List String) (fd : String)
    (fuel : Nat) :
    ∀ (iter j : Nat) (collected : List String) (boundary : Bool),
      collected.all NabOffset.markerFree = true →
      (NabOffset.collectInnerAux curLines fd fuel iter j collected
          boundary).collected.all NabOffset.markerFree = true := by
  induction fuel with
  | zero => intro iter j collected boundary h; exact h
  | succ f ih =>
    intro iter j collected boundary h
    rw [NabOffset.collectInnerAux]
    by_cases hj : j < curLines.length
    · rw [if_pos hj]
      by_cases hiter : iter + 1 > 500
      · rw [if_pos hiter]
        exact h
      · rw [if_neg hiter]
        simp only []
        by_cases hds : NabOffset.dateStopTest (curLines.getD j "") fd = true
        · rw [if_pos hds]
          exact h
        · rw [if_neg hds]
          by_cases hst : NabOffset.starsLine (curLines.getD j "") = true
          · rw [if_pos hst]
            exact ih _ _ _ _ h
          · rw [if_neg hst]
            by_cases hsk : NabOffset.collectSkipPhrases
                (StrUtil.lower (curLines.getD j "")) = true
            · rw [if_pos hsk]
              exact ih _ _ _ _ h
            · rw [if_neg hsk]
              by_cases hcf : StrUtil.containsS
                  (StrUtil.lower (curLines.getD j "")) "carried forward" = true
              · rw [if_pos hcf]
                exact h
              · rw [if_neg hcf]
                by_cases hbf : StrUtil.containsS
                    (StrUtil.lower (curLines.getD j "")) "brought forward" = true
                · rw [if_pos hbf]
                  exact ih _ _ _ _ h
                · rw [if_neg hbf]
                  have hmf : NabOffset.markerFree (curLines.getD j "") = true := by
                    rw [NabOffset.markerFree]
                    rw [Bool.not_eq_true] at hcf hbf
                    rw [hcf, hbf]
                    rfl
                  by_cases hdr : (decide (StrUtil.strip
                        (StrUtil.lower (curLines.getD j "")) = "cr") ||
                      decide (StrUtil.strip
                        (StrUtil.lower (curLines.getD j "")) = "dr")) = true
                  · rw [if_pos hdr]
                    by_cases hj1 : j + 1 < curLines.length
                    · rw [if_pos hj1]
                      by_cases hblm : (StrUtil.containsS
                            (StrUtil.lower (curLines.getD (j + 1) ""))
                            "carried forward" ||
                          StrUtil.containsS
                            (StrUtil.lower (curLines.getD (j + 1) ""))
                            "brought forward") = true
                      · rw [if_pos hblm]
                        exact ih _ _ _ _ h
                      · rw [if_neg hblm]
                        have hbmf : NabOffset.markerFree
                            (curLines.getD (j + 1) "") = true := by
                          rw [NabOffset.markerFree]
                          rw [Bool.or_eq_true, not_or] at hblm
                          obtain ⟨b1, b2⟩ := hblm
                          rw [Bool.not_eq_true] at b1 b2
                          rw [b1, b2]
                          rfl
                        by_cases hs2 : Rx.searchAmt2
                            (curLines.getD (j + 1) "").data = true
                        · rw [if_pos hs2]
                          rcases hpb : Core.parse_balance_with_dr_cr
                              (curLines.getD (j + 1) "" ++ " " ++
                                curLines.getD j "") with ⟨b, bd⟩
                          simp only [List.all_append, List.all_cons,
                            List.all_nil, h, hmf, hbmf, Bool.and_true,
                            Bool.true_and, Bool.and_self]
                        · rw [if_neg hs2]
                          refine ih _ _ _ _ ?_
                          simp only [List.all_append, List.all_cons,
                            List.all_nil, h, hmf, Bool.and_true,
                            Bool.true_and, Bool.and_self]
                    · rw [if_neg hj1]
                      refine ih _ _ _ _ ?_
                      simp only [List.all_append, List.all_cons, List.all_nil,
                        h, hmf, Bool.and_true, Bool.true_and, Bool.and_self]
                  · rw [if_neg hdr]
                    refine ih _ _ _ _ ?_
                    simp only [List.all_append, List.all_cons, List.all_nil,
                      h, hmf, Bool.and_true, Bool.true_and, Bool.and_self]
    · rw [if_neg hj]
      exact h

theorem collectInner_markerFree (curLines : List String) (fd : String)
    (iter j : Nat) (collected : List String) (boundary : Bool)
    (h : collected.all NabOffset.markerFree = true) :
    (NabOffset.collectInner curLines fd iter j collected
        boundary).collected.all NabOffset.markerFree = true :=
  collectInnerAux_markerFree curLines fd (curLines.length + 1) iter j
    collected boundary h

theorem collectOuterAux_markerFree (doc : List (List String))
    (page_idx : Nat) (fd : String) (fuel : Nat) :
    ∀ (iterCount cpi j : Nat) (boundary : Bool) (collected : List String),
      collected.all NabOffset.markerFree = true →
      (NabOffset.collectOuterAux doc page_idx fd fuel iterCount cpi j
          boundary collected).collected.all NabOffset.markerFree = true := by
  induction fuel with
  | zero => intro i c j b col h; exact h
  | succ f ih =>
    intro iterCount cpi j boundary collected h
    rw [NabOffset.collectOuterAux]
    by_cases hcl : cpi < doc.length
    · rw [if_pos hcl]
      by_cases hit : iterCount + 1 > 1000
      · rw [if_pos hit]
        exact h
      · rw [if_neg hit]
        simp only []
        by_cases hpg : cpi > page_idx
        · rw [if_pos hpg]
          have hx := collectInner_markerFree
            (NabOffset.footerFilter (doc.getD cpi [])) fd 0
            (NabOffset.newPageSkip (NabOffset.footerFilter (doc.getD cpi [])) 0).1
            collected
            (NabOffset.newPageSkip (NabOffset.footerFilter (doc.getD cpi [])) 0).2
            h
          generalize hgen : NabOffset.collectInner
            (NabOffset.footerFilter (doc.getD cpi [])) fd 0
            (NabOffset.newPageSkip (NabOffset.footerFilter (doc.getD cpi [])) 0).1
            collected
            (NabOffset.newPageSkip (NabOffset.footerFilter (doc.getD cpi [])) 0).2
            = io at hx ⊢
          repeat' split
          all_goals first | exact hx | exact ih _ _ _ _ _ hx
        · rw [if_neg hpg]
          have hx := collectInner_markerFree
            (NabOffset.footerFilter (doc.getD cpi [])) fd 0
            (j, boundary).1 collected (j, boundary).2 h
          generalize hgen : NabOffset.collectInner
            (NabOffset.footerFilter (doc.getD cpi [])) fd 0
            (j, boundary).1 collected (j, boundary).2 = io at hx ⊢
          repeat' split
          all_goals first | exact hx | exact ih _ _ _ _ _ hx
    · rw [if_neg hcl]
      exact h

/-- C5: the claim says a carried-forward/brought-forward page boundary
emits no record for either marker line, keeps the markers out of every
block's raw lines, and resets the running-balance anchor to the carried
value; on the concrete two-page statement carrying 300.00 across the
boundary the markers are indeed silent and excluded, but the anchor ends
at the day-end balance 900.00, not at the carried 300.00. -/
theorem c5_counterexample :
    NabOffset.parse_transactions NabOffset.nabCarriedDoc 2024 =
      [⟨"17/05/2024", "Online Transfer", ⟨10000, 2⟩, ⟨10000, 2⟩⟩] ∧
    (NabOffset.scanDocument NabOffset.nabCarriedDoc 2024).running_balance =
      some ⟨90000, 2⟩ ∧
    Flt.beq ⟨90000, 2⟩ ⟨30000, 2⟩ = false := by
  refine ⟨by decide, by decide, by decide⟩

/-- C5 (amended): the cross-page collection never adds a marker line to the
collected raw lines, the emission filter never emits a record whose
transaction carries a marker phrase, and when a day-end balance is found
the running-balance anchor is set to that day-end balance. -/
theorem c5_markers :
    (∀ (doc : List (List String)) (page_idx : Nat) (fd : String)
        (iterCount cpi j : Nat) (boundary : Bool) (collected : List String),
      collected.all NabOffset.markerFree = true →
      (NabOffset.collectOuter doc page_idx fd iterCount cpi j boundary
          collected).collected.all NabOffset.markerFree = true) ∧
    (∀ (fd : String) (processed : List (String × Flt × Flt))
        (r : NabOffset.NabRow),
      r ∈ NabOffset.emitFilter fd processed →
      NabOffset.markerFree r.transaction = true) ∧
    (∀ (fd : String) (trans : List (String × Flt × Bool)) (dayEnd : Flt)
        (rb : Option Flt),
      trans ≠ [] →
      (NabOffset.resolveDay fd trans (some dayEnd) rb).2 = some dayEnd) := by
  refine ⟨?_, ?_, ?_⟩
  · intro doc page_idx fd iterCount cpi j boundary collected h
    exact collectOuterAux_markerFree doc page_idx fd (doc.length + 1)
      iterCount cpi j boundary collected h
  · intro fd processed r hr
    rw [NabOffset.emitFilter] at hr
    obtain ⟨a, ha, hfa⟩ := List.mem_filterMap.mp hr
    simp only [] at hfa
    split at hfa
    · exact absurd hfa (by simp)
    · split at hfa
      · exact absurd hfa (by simp)
      · rename_i hg2
        simp only [Option.some.injEq] at hfa
        subst hfa
        simp only [Bool.or_eq_true, not_or, Bool.not_eq_true] at hg2
        have hb := hg2.1.2
        have hc := hg2.2
        rw [NabOffset.markerFree]
        show (!StrUtil.containsS (StrUtil.lower a.1) "carried forward" &&
          !StrUtil.containsS (StrUtil.lower a.1) "brought forward") = true
        rw [hb, hc]
        rfl
  · intro fd trans dayEnd rb hne
    rw [NabOffset.resolveDay]
    simp only []
    rw [if_pos hne]

/-- C5 witness: the marker-exclusion and anchor behaviour at concrete
inputs. -/
theorem c5_markers_witness :
    (NabOffset.collectOuter NabOffset.nabCarriedDoc 0 "17/05/2024" 0 0 1
        false []).collected.all NabOffset.markerFree = true ∧
    (NabOffset.resolveDay "17/05/2024" [("Online Transfer", ⟨10000, 2⟩,
        false)] (some ⟨90000, 2⟩) none).2 = some ⟨90000, 2⟩ :=
  ⟨c5_markers.1 NabOffset.nabCarriedDoc 0 "17/05/2024" 0 0 1 false []
     (by decide),
   c5_markers.2.2 "17/05/2024" [("Online Transfer", ⟨10000, 2⟩, false)]
     ⟨90000, 2⟩ none (by decide)⟩

theorem scanLinesAux_out (lines : List String) (fuel i : Nat)
    (hf ts : Bool) (st : CbaAccount.ScanSt) (h : lines.length ≤ i) :
    CbaAccount.scanLinesAux lines fuel i hf ts st = st := by
  cases fuel with
  | zero => rfl
  | succ f =>
    rw [CbaAccount.scanLinesAux]
    rw [if_neg (by omega)]

/-- C6: the claim says a token on which date parsing returns null leaves
both `currentYear` and `lastMonth` untouched; a year-bearing token with an
unknown month abbreviation (`15 Xyz 2023`) parses to null yet the CBA
account scan still overwrites `currentYear` with the token's year. -/
theorem c6_counterexample :
    CbaAccount.resolveDateLine "15 Xyz 2023" 2020 (some 12) =
      ⟨none, 2023, none⟩ ∧
    CbaAccount.scanLines ["15 Xyz 2023"] 0 true true ⟨[], 2020, some 12⟩ =
      ⟨[], 2023, some 12⟩ ∧
    ((2023 : Int) ≠ 2020) := by
  refine ⟨by decide, by decide, by decide⟩

/-- C6 (amended): a null date parse never touches `lastMonth` or the rows,
and keeps `currentYear` unchanged unless the token matched one of the
year-bearing shapes (whose four-digit year is written to the cursor even
when the month lookup fails). -/
theorem c6_null_parse :
    (∀ (line : String) (cy : Int) (lm : Option Nat),
      CbaAccount.dateAtStartYear? line.data = none →
      CbaAccount.dateYearStandalone? line.data = none →
      (CbaAccount.resolveDateLine line cy lm).year = cy) ∧
    (∀ (line : String) (rows : List CbaAccount.Row) (cy : Int)
        (lm : Option Nat),
      CbaAccount.skip_line_patterns_hit (StrUtil.lower line) = false →
      (CbaAccount.resolveDateLine line cy lm).formatted = none →
      CbaAccount.scanLines [line] 0 true true ⟨rows, cy, lm⟩ =
        ⟨rows, (CbaAccount.resolveDateLine line cy lm).year, lm⟩) := by
  constructor
  · intro line cy lm h1 h2
    rw [CbaAccount.resolveDateLine]
    simp only [h1, h2]
    rcases hda : CbaAccount.dateAtStart? line.data with _ | p
    · rcases hds : CbaAccount.dateStandalone? line.data with _ | t
      · rfl
      · rfl
    · rfl
  · intro line rows cy lm hskip hfmt
    rw [CbaAccount.scanLines, CbaAccount.scanLinesAux]
    rw [if_pos (by simp : (0:Nat) < [line].length)]
    rw [List.getD_cons_zero]
    simp only [hskip, Bool.false_eq_true, if_false, if_true, hfmt,
      Bool.not_true]
    exact scanLinesAux_out _ _ _ _ _ _ (by simp)

/-- C6 witness: the null-parse behaviour at concrete inputs. -/
theorem c6_null_parse_witness :
    (CbaAccount.resolveDateLine "AFTERPAY" 2020 none).year = 2020 ∧
    CbaAccount.scanLines ["15 Xyz 2023"] 0 true true ⟨[], 2020, some 12⟩ =
      ⟨[], (CbaAccount.resolveDateLine "15 Xyz 2023" 2020 (some 12)).year,
        some 12⟩ :=
  ⟨c6_null_parse.1 "AFTERPAY" 2020 none (by decide) (by decide),
   c6_null_parse.2 "15 Xyz 2023" [] 2020 (some 12) (by decide) (by decide)⟩

/-- C7: for a yearless `DD MON` token parsed under `currentYear = Y` and
`lastMonth = M`, the year is `Y + 1` exactly when the token's month number
is less than `M`, and otherwise `Y`; in particular `31 Dec` then `02 Jan`
expand to `31/12/Y` and `02/01/(Y+1)`. -/
theorem c7_rollover :
    (∀ (ds : String) (Y : Int) (M : Nat) (t3 : Rx.DateTok)
        (rest : List Char) (m : Nat),
      Rx.matchDayMonWith Rx.matchMon3 (StrUtil.stripL ds.data) =
        some (t3, rest) →
      Rx.closeStandalone rest = true →
      Core.monthLookup t3.mon = some m →
      CbaAccount.parse_date_dd_mmm ds Y (some M) =
        some (Core.formatDate (StrUtil.natOfDigits t3.day) m
          (if m < M then Y + 1 else Y))) ∧
    (∀ Y : Int,
      CbaAccount.parse_date_dd_mmm "31 Dec" Y (some 11) =
        some ("31/12/" ++ toString Y) ∧
      CbaAccount.parse_date_dd_mmm "02 Jan" Y (some 12) =
        some ("02/01/" ++ toString (Y + 1))) := by
  have hgen : ∀ (ds : String) (Y : Int) (M : Nat) (t3 : Rx.DateTok)
      (rest : List Char) (m : Nat),
      Rx.matchDayMonWith Rx.matchMon3 (StrUtil.stripL ds.data) =
        some (t3, rest) →
      Rx.closeStandalone rest = true →
      Core.monthLookup t3.mon = some m →
      CbaAccount.parse_date_dd_mmm ds Y (some M) =
        some (Core.formatDate (StrUtil.natOfDigits t3.day) m
          (if m < M then Y + 1 else Y)) := by
    intro ds Y M t3 rest m hm hc hl
    rw [CbaAccount.parse_date_dd_mmm]
    simp only [hm, hc, if_true, hl]
  refine ⟨hgen, ?_⟩
  intro Y
  constructor
  · have h := hgen "31 Dec" Y 11 ⟨['3','1'], [' '], ['D','e','c']⟩ [] 12
      (by decide) (by decide) (by decide)
    rw [h, if_neg (by decide)]
    rfl
  · have h := hgen "02 Jan" Y 12 ⟨['0','2'], [' '], ['J','a','n']⟩ [] 1
      (by decide) (by decide) (by decide)
    rw [h, if_pos (by decide)]
    rfl

/-- C7 witness: the rollover rule at concrete inputs. -/
theorem c7_rollover_witness :
    CbaAccount.parse_date_dd_mmm "05 Mar" 2022 (some 11) =
      some (Core.formatDate (StrUtil.natOfDigits ['0','5']) 3
        (if 3 < 11 then 2022 + 1 else 2022)) ∧
    (CbaAccount.parse_date_dd_mmm "31 Dec" 2023 (some 11) =
      some ("31/12/" ++ toString (2023 : Int)) ∧
     CbaAccount.parse_date_dd_mmm "02 Jan" 2023 (some 12) =
      some ("02/01/" ++ toString ((2023 : Int) + 1))) :=
  ⟨c7_rollover.1 "05 Mar" 2022 11 ⟨['0','5'], [' '], ['M','a','r']⟩ [] 3
     (by decide) (by decide) (by decide),
   c7_rollover.2 2023⟩

theorem thirdPassAux_out (collected : List String) (fuel i : Nat)
    (st : NabOffset.ThirdSt) (h : collected.length ≤ i) :
    NabOffset.thirdPassAux collected fuel i st = st := by
  cases fuel with
  | zero => rfl
  | succ f =>
    rw [NabOffset.thirdPassAux]
    rw [if_neg (by omega)]

/-- C8: the claim says a filler-run line's column is inferred from the run
length alone (under 100 dots means debit); the accumulated description
overrides it — with the same 8-dot run, a neutral description gives debit
but a clear-credit keyword such as `refund` gives credit, and the third
pass stores the `Refund` line's amount as a credit. -/
theorem c8_counterexample :
    NabOffset.dotsIsDebit 8 "abc" = true ∧
    NabOffset.dotsIsDebit 8 "refund refund" = false ∧
    NabOffset.dotsAmountSearch "Refund ........ 50.00" = some (8, "50.00") ∧
    NabOffset.thirdPass ["Refund ........ 50.00"] 0 ⟨[], [], none, none⟩ =
      ⟨[("Refund", ⟨5000, 2⟩, false)], [], none, none⟩ ∧
    8 < 100 := by
  refine ⟨by decide, by decide, by decide, by decide, by decide⟩

/-- C8 (amended): runs of 100 dots or more always mean the credit column;
shorter runs mean the debit column only when the accumulated description
has no clear-credit keyword, which otherwise forces credit; and the third
pass applies exactly this rule to a filler-run amount line. -/
theorem c8_dots_rule :
    (∀ (nd : Nat) (t : String), 100 ≤ nd →
      NabOffset.dotsIsDebit nd t = false) ∧
    (∀ (nd : Nat) (t : String), NabOffset.isClearCredit t = false →
      (NabOffset.dotsIsDebit nd t = true ↔ nd < 100)) ∧
    (∀ (nd : Nat) (t : String), NabOffset.isClearCredit t = true →
      NabOffset.dotsIsDebit nd t = false) ∧
    (∀ (line : String) (nd : Nat) (astr : String) (amt : Flt),
      StrUtil.strip (StrUtil.lower line) ≠ "" →
      StrUtil.containsS (StrUtil.strip (StrUtil.lower line))
        "carried forward" = false →
      StrUtil.containsS (StrUtil.strip (StrUtil.lower line))
        "brought forward" = false →
      StrUtil.strip (StrUtil.lower line) ≠ "cr" →
      StrUtil.strip (StrUtil.lower line) ≠ "dr" →
      NabOffset.dotsAmountSearch line = some (nd, astr) →
      Core.parse_amount astr = some amt →
      NabOffset.cutAtDots3 line ≠ "" →
      NabOffset.thirdPass [line] 0 ⟨[], [], none, none⟩ =
        NabOffset.saveWithAmount
          ⟨[], [NabOffset.cutAtDots3 line], none, none⟩
          (amt, NabOffset.dotsIsDebit nd
            (StrUtil.lower (StrUtil.joinSp ([NabOffset.cutAtDots3 line] ++
              [NabOffset.cutAtDots3 line]))))) := by
  refine ⟨?_, ?_, ?_, ?_⟩
  · intro nd t h
    rw [NabOffset.dotsIsDebit]
    simp only [Bool.and_eq_false_iff]
    left
    simpa using h
  · intro nd t h
    rw [NabOffset.dotsIsDebit, h]
    simp
  · intro nd t h
    rw [NabOffset.dotsIsDebit, h]
    simp
  · intro line nd astr amt h0 hcf hbf hcr hdr hda hpa hdp
    rw [NabOffset.thirdPass, NabOffset.thirdPassAux]
    rw [if_pos (by simp : (0:Nat) < [line].length)]
    rw [List.getD_cons_zero]
    simp only [h0, hcf, hbf, hcr, hdr, hda, hpa, hdp, Bool.or_self,
      Bool.false_eq_true, if_false, decide_eq_true_eq, if_neg, ne_eq,
      not_false_eq_true, if_true]
    rw [thirdPassAux_out _ _ _ _ (by simp)]
    simp only [List.nil_append]

/-- C8 witness: the dots rule at concrete inputs, including the third pass
on a clear-credit filler line. -/
theorem c8_dots_rule_witness :
    NabOffset.dotsIsDebit 120 "abc" = false ∧
    (NabOffset.dotsIsDebit 8 "abc" = true ↔ 8 < 100) ∧
    NabOffset.dotsIsDebit 8 "refund refund" = false ∧
    NabOffset.thirdPass ["Refund ........ 50.00"] 0 ⟨[], [], none, none⟩ =
      NabOffset.saveWithAmount
        ⟨[], [NabOffset.cutAtDots3 "Refund ........ 50.00"], none, none⟩
        (⟨5000, 2⟩, NabOffset.dotsIsDebit 8
          (StrUtil.lower (StrUtil.joinSp
            ([NabOffset.cutAtDots3 "Refund ........ 50.00"] ++
             [NabOffset.cutAtDots3 "Refund ........ 50.00"])))) :=
  ⟨c8_dots_rule.1 120 "abc" (by decide),
   c8_dots_rule.2.1 8 "abc" (by decide),
   c8_dots_rule.2.2.1 8 "refund refund" (by decide),
   c8_dots_rule.2.2.2 "Refund ........ 50.00" 8 "50.00" ⟨5000, 2⟩
     (by decide) (by decide) (by decide) (by decide) (by decide) (by decide)
     (by decide) (by decide)⟩

/-- C10: each distinct formatted date is processed at most once: a line
whose formatted date is already in `processed_dates` is skipped (only the
cursor year is updated, no rows are emitted and the index just advances),
and every scan step only ever appends to `processed_dates`, so a recorded
date stays recorded. -/
theorem c10_processed_dates :
    (∀ (doc : List (List String)) (page_idx : Nat) (lines : List String)
        (i : Nat) (st : NabOffset.NabSt) (fd : String),
      NabOffset.starsLine (lines.getD i "") = false →
      NabOffset.scanSkipTerms (StrUtil.lower (lines.getD i "")) = false →
      StrUtil.strip (StrUtil.lower (lines.getD i "")) ≠ "brought forward" →
      (NabOffset.resolveDateLine (lines.getD i "") st.current_year
          st.last_month).formatted = some fd →
      fd ∈ st.processed_dates →
      NabOffset.scanBody doc page_idx lines i true true st =
        (i + 1, true, true, { st with current_year :=
          (NabOffset.resolveDateLine (lines.getD i "") st.current_year
            st.last_month).year })) ∧
    (∀ (doc : List (List String)) (page_idx : Nat) (lines : List String)
        (i : Nat) (hf ts : Bool) (st : NabOffset.NabSt), ∃ t,
      (NabOffset.scanBody doc page_idx lines i hf ts
          st).2.2.2.processed_dates = st.processed_dates ++ t) := by
  constructor
  · intro doc page_idx lines i st fd hst hsk hbf hfmt hmem
    rw [NabOffset.scanBody]
    simp only [Bool.not_true, Bool.false_and, Bool.false_eq_true, if_false,
      hst, hsk]
    rw [if_neg hbf]
    simp only [hfmt]
    rw [if_pos hmem]
  · intro doc page_idx lines i hf ts st
    rw [NabOffset.scanBody]
    simp only []
    by_cases h1 : (!hf && StrUtil.containsS (StrUtil.lower (lines.getD i ""))
        "date" && StrUtil.containsS (StrUtil.lower (lines.getD i ""))
        "particulars") = true
    · rw [if_pos h1]
      exact ⟨[], (List.append_nil _).symm⟩
    · rw [if_neg h1]
      by_cases h2 : (!hf &&
          decide (StrUtil.strip (StrUtil.lower (lines.getD i "")) = "date") &&
          decide (i + 4 < lines.length) &&
          (StrUtil.containsS (StrUtil.joinSp ((List.range 4).map
              (fun m => StrUtil.lower (lines.getD (i + 1 + m) ""))))
              "particulars" &&
            (StrUtil.containsS (StrUtil.joinSp ((List.range 4).map
                (fun m => StrUtil.lower (lines.getD (i + 1 + m) ""))))
                "debits" ||
              StrUtil.containsS (StrUtil.joinSp ((List.range 4).map
                (fun m => StrUtil.lower (lines.getD (i + 1 + m) ""))))
                "credits") &&
            StrUtil.containsS (StrUtil.joinSp ((List.range 4).map
              (fun m => StrUtil.lower (lines.getD (i + 1 + m) ""))))
              "balance")) = true
      · rw [if_pos h2]
        exact ⟨[], (List.append_nil _).symm⟩
      · rw [if_neg h2]
        by_cases h3 : (!ts) = true
        · rw [if_pos h3]
          exact ⟨[], (List.append_nil _).symm⟩
        · rw [if_neg h3]
          by_cases h4 : NabOffset.starsLine (lines.getD i "") = true
          · rw [if_pos h4]
            exact ⟨[], (List.append_nil _).symm⟩
          · rw [if_neg h4]
            by_cases h5 : NabOffset.scanSkipTerms
                (StrUtil.lower (lines.getD i "")) = true
            · rw [if_pos h5]
              exact ⟨[], (List.append_nil _).symm⟩
            · rw [if_neg h5]
              by_cases h6 : StrUtil.strip (StrUtil.lower (lines.getD i "")) =
                  "brought forward"
              · rw [if_pos h6]
                exact ⟨[], (List.append_nil _).symm⟩
              · rw [if_neg h6]
                rcases hr : (NabOffset.resolveDateLine (lines.getD i "")
                    st.current_year st.last_month).formatted with _ | fd
                · simp only [hr]
                  exact ⟨[], (List.append_nil _).symm⟩
                · simp only [hr]
                  by_cases h7 : fd ∈ st.processed_dates
                  · rw [if_pos h7]
                    exact ⟨[], (List.append_nil _).symm⟩
                  · rw [if_neg h7]
                    exact ⟨[fd], rfl⟩

/-- C10 witness: a duplicate date line is skipped at a concrete input. -/
theorem c10_processed_dates_witness :
    NabOffset.scanBody [] 0 ["17 May"] 0 true true
        ⟨[], 2024, some 5, none, ["17/05/2024"]⟩ =
      (0 + 1, true, true,
        { (⟨[], 2024, some 5, none, ["17/05/2024"]⟩ : NabOffset.NabSt) with
          current_year := (NabOffset.resolveDateLine (["17 May"].getD 0 "")
            (⟨[], 2024, some 5, none,
              ["17/05/2024"]⟩ : NabOffset.NabSt).current_year
            (⟨[], 2024, some 5, none,
              ["17/05/2024"]⟩ : NabOffset.NabSt).last_month).year }) :=
  c10_processed_dates.1 [] 0 ["17 May"] 0
    ⟨[], 2024, some 5, none, ["17/05/2024"]⟩ "17/05/2024"
    (by decide) (by decide) (by decide) (by decide) (by decide)
